import Mathlib

/-!
Boundary layer of the wallet library.

A shallow embedding of `src/wasm/src/c_api.cpp` (the `pw_*` entry points with
their helpers `dup_str` and `safe_str`), of `src/wasm/src/transport_js.cpp`
(the host-bridged transport: the `_fetch_http` bridge, `rpc_json`,
`rpc_binary`) and of `src/wasm/src/transport_native.cpp` (the native
transport), followed by the properties established about them. The job queue
of the engine, whose code is not under src/, is modelled from the spec.

Conventions of the embedding.

* A `std::string` is the list of its bytes.
* A `char*` is `none` for `nullptr` and otherwise the bytes found in memory
  from the pointed-to address on; reading it as a C string stops before the
  first NUL byte.
* The wallet engine (`plain_wallet::*`), whose code is not under src/, and the
  host's `fetch` are parameters of the model.
* `malloc` is a parameter as well: `dup_str` branches on its result. It stands
  for the requests of `dup_str` (and of `_malloc` in the bridge) alone. The
  storage a `std::string` takes for itself through `operator new` is not
  modelled: a `std::string` is taken as built, also the one a catch handler
  of an entry point builds before it calls `dup_str`, so the model is silent
  on a `std::bad_alloc` raised inside a handler.
* A JavaScript string is the list of its Unicode scalar values.
-/

namespace ZanoNative

set_option maxRecDepth 8000

/-! ## Strings, C strings and allocation -/

/-- A C++ `std::string`: its bytes, embedded NUL bytes allowed. -/
abbrev StdString := List UInt8

/-- Memory seen through a non-null `char*`: the bytes from that address on. -/
abbrev CBuf := List UInt8

/-- A `const char*` value; `none` is `nullptr`. -/
abbrev CPtr := Option CBuf

/-- The bytes of a string literal of the source (UTF-8). -/
def lit (s : String) : StdString := s.data.flatMap String.utf8EncodeChar

/-- Reading a C string, as `std::string(const char*)` and `strlen` do: the
bytes before the first NUL. -/
def cstr_read (p : CBuf) : StdString := p.takeWhile (fun b => b != 0)

/-- The buffer behind `s.c_str()`: the bytes of `s` followed by a NUL. -/
def c_str (s : StdString) : CBuf := s ++ [0]

/-- The C allocator. `malloc n` is `none` when the allocation fails and
otherwise the fresh block of `n` bytes, whose initial contents are arbitrary. -/
structure Allocator where
  malloc : Nat → Option CBuf
  malloc_size : ∀ n b, malloc n = some b → b.length = n

/-- An allocator that serves every request with a block filled with `0xAA`. -/
def Allocator.ample : Allocator where
  malloc n := some (List.replicate n 0xAA)
  malloc_size := by
    intro n b h
    cases h
    simp

/-- An allocator that refuses the requests of `n` bytes and serves every other
request with a block filled with `0xAA`. -/
def Allocator.refusing (n : Nat) : Allocator where
  malloc k := if k = n then none else some (List.replicate k 0xAA)
  malloc_size := by
    intro k b h
    by_cases hk : k = n
    · simp [hk] at h
    · simp only [hk, if_false, Option.some.injEq] at h
      subst h
      simp

/-- An allocator that has run out of memory: every request fails. -/
def Allocator.exhausted : Allocator where
  malloc _ := none
  malloc_size := by
    intro n b h
    cases h

/-- The effect of `memcpy(dest, src, n)` on the block `dest`. -/
def memcpy (dest : CBuf) (src : List UInt8) (n : Nat) : CBuf :=
  src.take n ++ dest.drop n

/-- What a function returning `const char*` hands back. `undefined_behaviour`
stands for a store through a null pointer. -/
inductive CStrResult where
  | undefined_behaviour : CStrResult
  | null : CStrResult
  | buffer (b : CBuf) : CStrResult
  deriving DecidableEq, Repr

/-- Source: `dup_str` of c_api.cpp, lines 16-32. The empty case stores the
terminator without testing the result of `malloc(1)`; the general case
returns `nullptr` when `malloc` fails. -/
def dup_str (A : Allocator) (s : StdString) : CStrResult :=
  if s.isEmpty then
    match A.malloc 1 with
    | none => CStrResult.undefined_behaviour
    | some empty => CStrResult.buffer (empty.set 0 0)
  else
    match A.malloc (s.length + 1) with
    | none => CStrResult.null
    | some result => CStrResult.buffer ((memcpy result s s.length).set s.length 0)

/-- Source: `safe_str` of c_api.cpp, lines 35-37. -/
def safe_str (str : CPtr) : StdString :=
  match str with
  | some p => cstr_read p
  | none => []

/-! ## The engine and the boundary state -/

/-- How a call into the engine ends: it returns, it throws an object derived
from `std::exception` (`e_what` is the memory behind `e.what()`), or it throws
an object of any other type. -/
inductive Outcome (α : Type) where
  | returned (a : α) : Outcome α
  | std_exception (e_what : CBuf) : Outcome α
  | other_throw : Outcome α
  deriving DecidableEq, Repr

/-- Observable steps of a boundary call: taking and releasing `g_api_mutex`
(c_api.cpp, line 13) and entering and leaving the engine. -/
inductive Event where
  | lock : Event
  | unlock : Event
  | engine_enter : Event
  | engine_exit : Event
  deriving DecidableEq, Repr

/-- The state a boundary call runs in: the engine state and the steps taken
so far. -/
structure World (σ : Type) where
  engine : σ
  trace : List Event
  deriving DecidableEq, Repr

/-- The scope of `std::lock_guard<std::mutex> lock(g_api_mutex)`: the mutex is
taken on entry and released when the scope is left, on every path. -/
def lock_guard {σ α : Type} (body : World σ → α × World σ) (w : World σ) : α × World σ :=
  let r := body { w with trace := w.trace ++ [Event.lock] }
  (r.1, { r.2 with trace := r.2.trace ++ [Event.unlock] })

/-- A call into the engine from inside a `try` block. -/
def engine_call {σ α : Type} (op : σ → Outcome α × σ) (w : World σ) : Outcome α × World σ :=
  let r := op w.engine
  (r.1, { engine := r.2, trace := w.trace ++ [Event.engine_enter, Event.engine_exit] })

/-- The wallet engine, namespace `plain_wallet` of the Zano sources. Each
operation runs on the engine state and either returns or throws. The two
overloads of `plain_wallet::init` are the fields `init` and `init_ip_port`;
`open_` is `plain_wallet::open`. -/
structure Engine (σ : Type) where
  init : StdString → StdString → Int → σ → Outcome StdString × σ
  init_ip_port : StdString → StdString → StdString → Int → σ → Outcome StdString × σ
  reset : σ → Outcome StdString × σ
  set_log_level : Int → σ → Outcome StdString × σ
  get_version : σ → Outcome StdString × σ
  get_wallet_files : σ → Outcome StdString × σ
  delete_wallet : StdString → σ → Outcome StdString × σ
  is_wallet_exist : StdString → σ → Outcome Bool × σ
  get_export_private_info : StdString → σ → Outcome StdString × σ
  get_appconfig : StdString → σ → Outcome StdString × σ
  set_appconfig : StdString → StdString → σ → Outcome StdString × σ
  generate_random_key : Nat → σ → Outcome StdString × σ
  get_logs_buffer : σ → Outcome StdString × σ
  truncate_log : σ → Outcome StdString × σ
  get_connectivity_status : σ → Outcome StdString × σ
  get_address_info : StdString → σ → Outcome StdString × σ
  generate : StdString → StdString → σ → Outcome StdString × σ
  restore : StdString → StdString → StdString → StdString → σ → Outcome StdString × σ
  open_ : StdString → StdString → σ → Outcome StdString × σ
  close_wallet : Int → σ → Outcome StdString × σ
  get_opened_wallets : σ → Outcome StdString × σ
  get_wallet_status : Int → σ → Outcome StdString × σ
  get_wallet_info : Int → σ → Outcome StdString × σ
  reset_wallet_password : Int → StdString → σ → Outcome StdString × σ
  invoke : Int → StdString → σ → Outcome StdString × σ
  get_current_tx_fee : Nat → σ → Outcome Nat × σ
  async_call : StdString → Int → StdString → σ → Outcome StdString × σ
  try_pull_result : Nat → σ → Outcome StdString × σ
  sync_call : StdString → Nat → StdString → σ → Outcome StdString × σ

/-- Source: `pw_init` of c_api.cpp, lines 45-56. The `std::string` that a
handler builds is taken as built before `dup_str` is called. -/
def pw_init {σ : Type} (E : Engine σ) (A : Allocator)
    (daemon_url : CPtr) (workdir : CPtr) (log_level : Int) :
    World σ → CStrResult × World σ :=
  lock_guard fun w =>
    match engine_call (E.init (safe_str daemon_url) (safe_str workdir) log_level) w with
    | (Outcome.returned result, w) => (dup_str A result, w)
    | (Outcome.std_exception e_what, w) =>
      (dup_str A (lit "\x7b\"error\": \"" ++ cstr_read e_what ++ lit "\"\x7d"), w)
    | (Outcome.other_throw, w) =>
      (dup_str A (lit "\x7b\"error\": \"Unknown exception in pw_init\"\x7d"), w)

/-- Source: `pw_init_ip_port` of c_api.cpp, lines 58-69. The `std::string` that a
handler builds is taken as built before `dup_str` is called. -/
def pw_init_ip_port {σ : Type} (E : Engine σ) (A : Allocator)
    (ip : CPtr) (port : CPtr) (workdir : CPtr) (log_level : Int) :
    World σ → CStrResult × World σ :=
  lock_guard fun w =>
    match engine_call (E.init_ip_port (safe_str ip) (safe_str port) (safe_str workdir) log_level) w with
    | (Outcome.returned result, w) => (dup_str A result, w)
    | (Outcome.std_exception e_what, w) =>
      (dup_str A (lit "\x7b\"error\": \"" ++ cstr_read e_what ++ lit "\"\x7d"), w)
    | (Outcome.other_throw, w) =>
      (dup_str A (lit "\x7b\"error\": \"Unknown exception in pw_init_ip_port\"\x7d"), w)

/-- Source: `pw_reset` of c_api.cpp, lines 71-82. The `std::string` that a
handler builds is taken as built before `dup_str` is called. -/
def pw_reset {σ : Type} (E : Engine σ) (A : Allocator) :
    World σ → CStrResult × World σ :=
  lock_guard fun w =>
    match engine_call (E.reset) w with
    | (Outcome.returned result, w) => (dup_str A result, w)
    | (Outcome.std_exception e_what, w) =>
      (dup_str A (lit "\x7b\"error\": \"" ++ cstr_read e_what ++ lit "\"\x7d"), w)
    | (Outcome.other_throw, w) =>
      (dup_str A (lit "\x7b\"error\": \"Unknown exception in pw_reset\"\x7d"), w)

/-- Source: `pw_set_log_level` of c_api.cpp, lines 84-95. The `std::string` that a
handler builds is taken as built before `dup_str` is called. -/
def pw_set_log_level {σ : Type} (E : Engine σ) (A : Allocator) (log_level : Int) :
    World σ → CStrResult × World σ :=
  lock_guard fun w =>
    match engine_call (E.set_log_level log_level) w with
    | (Outcome.returned result, w) => (dup_str A result, w)
    | (Outcome.std_exception e_what, w) =>
      (dup_str A (lit "\x7b\"error\": \"" ++ cstr_read e_what ++ lit "\"\x7d"), w)
    | (Outcome.other_throw, w) =>
      (dup_str A (lit "\x7b\"error\": \"Unknown exception in pw_set_log_level\"\x7d"), w)

/-- Source: `pw_get_version` of c_api.cpp, lines 97-108. The `std::string` that a
handler builds is taken as built before `dup_str` is called. -/
def pw_get_version {σ : Type} (E : Engine σ) (A : Allocator) :
    World σ → CStrResult × World σ :=
  lock_guard fun w =>
    match engine_call (E.get_version) w with
    | (Outcome.returned result, w) => (dup_str A result, w)
    | (Outcome.std_exception e_what, w) =>
      (dup_str A (lit "\x7b\"error\": \"" ++ cstr_read e_what ++ lit "\"\x7d"), w)
    | (Outcome.other_throw, w) =>
      (dup_str A (lit "\x7b\"error\": \"Unknown exception in pw_get_version\"\x7d"), w)

/-- Source: `pw_get_wallet_files` of c_api.cpp, lines 114-125. The `std::string` that a
handler builds is taken as built before `dup_str` is called. -/
def pw_get_wallet_files {σ : Type} (E : Engine σ) (A : Allocator) :
    World σ → CStrResult × World σ :=
  lock_guard fun w =>
    match engine_call (E.get_wallet_files) w with
    | (Outcome.returned result, w) => (dup_str A result, w)
    | (Outcome.std_exception e_what, w) =>
      (dup_str A (lit "\x7b\"error\": \"" ++ cstr_read e_what ++ lit "\"\x7d"), w)
    | (Outcome.other_throw, w) =>
      (dup_str A (lit "\x7b\"error\": \"Unknown exception in pw_get_wallet_files\"\x7d"), w)

/-- Source: `pw_delete_wallet` of c_api.cpp, lines 127-138. The `std::string` that a
handler builds is taken as built before `dup_str` is called. -/
def pw_delete_wallet {σ : Type} (E : Engine σ) (A : Allocator) (file_name : CPtr) :
    World σ → CStrResult × World σ :=
  lock_guard fun w =>
    match engine_call (E.delete_wallet (safe_str file_name)) w with
    | (Outcome.returned result, w) => (dup_str A result, w)
    | (Outcome.std_exception e_what, w) =>
      (dup_str A (lit "\x7b\"error\": \"" ++ cstr_read e_what ++ lit "\"\x7d"), w)
    | (Outcome.other_throw, w) =>
      (dup_str A (lit "\x7b\"error\": \"Unknown exception in pw_delete_wallet\"\x7d"), w)

/-- Source: `pw_get_export_private_info` of c_api.cpp, lines 149-160. The `std::string` that a
handler builds is taken as built before `dup_str` is called. -/
def pw_get_export_private_info {σ : Type} (E : Engine σ) (A : Allocator) (target_dir : CPtr) :
    World σ → CStrResult × World σ :=
  lock_guard fun w =>
    match engine_call (E.get_export_private_info (safe_str target_dir)) w with
    | (Outcome.returned result, w) => (dup_str A result, w)
    | (Outcome.std_exception e_what, w) =>
      (dup_str A (lit "\x7b\"error\": \"" ++ cstr_read e_what ++ lit "\"\x7d"), w)
    | (Outcome.other_throw, w) =>
      (dup_str A (lit "\x7b\"error\": \"Unknown exception in pw_get_export_private_info\"\x7d"), w)

/-- Source: `pw_get_appconfig` of c_api.cpp, lines 166-177. The `std::string` that a
handler builds is taken as built before `dup_str` is called. -/
def pw_get_appconfig {σ : Type} (E : Engine σ) (A : Allocator) (encryption_key : CPtr) :
    World σ → CStrResult × World σ :=
  lock_guard fun w =>
    match engine_call (E.get_appconfig (safe_str encryption_key)) w with
    | (Outcome.returned result, w) => (dup_str A result, w)
    | (Outcome.std_exception e_what, w) =>
      (dup_str A (lit "\x7b\"error\": \"" ++ cstr_read e_what ++ lit "\"\x7d"), w)
    | (Outcome.other_throw, w) =>
      (dup_str A (lit "\x7b\"error\": \"Unknown exception in pw_get_appconfig\"\x7d"), w)

/-- Source: `pw_set_appconfig` of c_api.cpp, lines 179-190. The `std::string` that a
handler builds is taken as built before `dup_str` is called. -/
def pw_set_appconfig {σ : Type} (E : Engine σ) (A : Allocator)
    (conf_str : CPtr) (encryption_key : CPtr) :
    World σ → CStrResult × World σ :=
  lock_guard fun w =>
    match engine_call (E.set_appconfig (safe_str conf_str) (safe_str encryption_key)) w with
    | (Outcome.returned result, w) => (dup_str A result, w)
    | (Outcome.std_exception e_what, w) =>
      (dup_str A (lit "\x7b\"error\": \"" ++ cstr_read e_what ++ lit "\"\x7d"), w)
    | (Outcome.other_throw, w) =>
      (dup_str A (lit "\x7b\"error\": \"Unknown exception in pw_set_appconfig\"\x7d"), w)

/-- Source: `pw_generate_random_key` of c_api.cpp, lines 196-207. The `std::string` that a
handler builds is taken as built before `dup_str` is called. -/
def pw_generate_random_key {σ : Type} (E : Engine σ) (A : Allocator) (length : Nat) :
    World σ → CStrResult × World σ :=
  lock_guard fun w =>
    match engine_call (E.generate_random_key length) w with
    | (Outcome.returned result, w) => (dup_str A result, w)
    | (Outcome.std_exception e_what, w) =>
      (dup_str A (lit "\x7b\"error\": \"" ++ cstr_read e_what ++ lit "\"\x7d"), w)
    | (Outcome.other_throw, w) =>
      (dup_str A (lit "\x7b\"error\": \"Unknown exception in pw_generate_random_key\"\x7d"), w)

/-- Source: `pw_get_logs_buffer` of c_api.cpp, lines 209-220. The `std::string` that a
handler builds is taken as built before `dup_str` is called. -/
def pw_get_logs_buffer {σ : Type} (E : Engine σ) (A : Allocator) :
    World σ → CStrResult × World σ :=
  lock_guard fun w =>
    match engine_call (E.get_logs_buffer) w with
    | (Outcome.returned result, w) => (dup_str A result, w)
    | (Outcome.std_exception e_what, w) =>
      (dup_str A (lit "\x7b\"error\": \"" ++ cstr_read e_what ++ lit "\"\x7d"), w)
    | (Outcome.other_throw, w) =>
      (dup_str A (lit "\x7b\"error\": \"Unknown exception in pw_get_logs_buffer\"\x7d"), w)

/-- Source: `pw_truncate_log` of c_api.cpp, lines 222-233. The `std::string` that a
handler builds is taken as built before `dup_str` is called. -/
def pw_truncate_log {σ : Type} (E : Engine σ) (A : Allocator) :
    World σ → CStrResult × World σ :=
  lock_guard fun w =>
    match engine_call (E.truncate_log) w with
    | (Outcome.returned result, w) => (dup_str A result, w)
    | (Outcome.std_exception e_what, w) =>
      (dup_str A (lit "\x7b\"error\": \"" ++ cstr_read e_what ++ lit "\"\x7d"), w)
    | (Outcome.other_throw, w) =>
      (dup_str A (lit "\x7b\"error\": \"Unknown exception in pw_truncate_log\"\x7d"), w)

/-- Source: `pw_get_connectivity_status` of c_api.cpp, lines 235-246. The `std::string` that a
handler builds is taken as built before `dup_str` is called. -/
def pw_get_connectivity_status {σ : Type} (E : Engine σ) (A : Allocator) :
    World σ → CStrResult × World σ :=
  lock_guard fun w =>
    match engine_call (E.get_connectivity_status) w with
    | (Outcome.returned result, w) => (dup_str A result, w)
    | (Outcome.std_exception e_what, w) =>
      (dup_str A (lit "\x7b\"error\": \"" ++ cstr_read e_what ++ lit "\"\x7d"), w)
    | (Outcome.other_throw, w) =>
      (dup_str A (lit "\x7b\"error\": \"Unknown exception in pw_get_connectivity_status\"\x7d"), w)

/-- Source: `pw_get_address_info` of c_api.cpp, lines 248-259. The `std::string` that a
handler builds is taken as built before `dup_str` is called. -/
def pw_get_address_info {σ : Type} (E : Engine σ) (A : Allocator) (addr : CPtr) :
    World σ → CStrResult × World σ :=
  lock_guard fun w =>
    match engine_call (E.get_address_info (safe_str addr)) w with
    | (Outcome.returned result, w) => (dup_str A result, w)
    | (Outcome.std_exception e_what, w) =>
      (dup_str A (lit "\x7b\"error\": \"" ++ cstr_read e_what ++ lit "\"\x7d"), w)
    | (Outcome.other_throw, w) =>
      (dup_str A (lit "\x7b\"error\": \"Unknown exception in pw_get_address_info\"\x7d"), w)

/-- Source: `pw_generate` of c_api.cpp, lines 265-276. The `std::string` that a
handler builds is taken as built before `dup_str` is called. -/
def pw_generate {σ : Type} (E : Engine σ) (A : Allocator) (path : CPtr) (password : CPtr) :
    World σ → CStrResult × World σ :=
  lock_guard fun w =>
    match engine_call (E.generate (safe_str path) (safe_str password)) w with
    | (Outcome.returned result, w) => (dup_str A result, w)
    | (Outcome.std_exception e_what, w) =>
      (dup_str A (lit "\x7b\"error\": \"" ++ cstr_read e_what ++ lit "\"\x7d"), w)
    | (Outcome.other_throw, w) =>
      (dup_str A (lit "\x7b\"error\": \"Unknown exception in pw_generate\"\x7d"), w)

/-- Source: `pw_restore` of c_api.cpp, lines 278-294. The `std::string` that a
handler builds is taken as built before `dup_str` is called. -/
def pw_restore {σ : Type} (E : Engine σ) (A : Allocator)
    (seed : CPtr) (path : CPtr) (password : CPtr) (seed_password : CPtr) :
    World σ → CStrResult × World σ :=
  lock_guard fun w =>
    match engine_call (E.restore (safe_str seed) (safe_str path) (safe_str password) (safe_str seed_password)) w with
    | (Outcome.returned result, w) => (dup_str A result, w)
    | (Outcome.std_exception e_what, w) =>
      (dup_str A (lit "\x7b\"error\": \"" ++ cstr_read e_what ++ lit "\"\x7d"), w)
    | (Outcome.other_throw, w) =>
      (dup_str A (lit "\x7b\"error\": \"Unknown exception in pw_restore\"\x7d"), w)

/-- Source: `pw_open` of c_api.cpp, lines 296-307. The `std::string` that a
handler builds is taken as built before `dup_str` is called. -/
def pw_open {σ : Type} (E : Engine σ) (A : Allocator) (path : CPtr) (password : CPtr) :
    World σ → CStrResult × World σ :=
  lock_guard fun w =>
    match engine_call (E.open_ (safe_str path) (safe_str password)) w with
    | (Outcome.returned result, w) => (dup_str A result, w)
    | (Outcome.std_exception e_what, w) =>
      (dup_str A (lit "\x7b\"error\": \"" ++ cstr_read e_what ++ lit "\"\x7d"), w)
    | (Outcome.other_throw, w) =>
      (dup_str A (lit "\x7b\"error\": \"Unknown exception in pw_open\"\x7d"), w)

/-- Source: `pw_close_wallet` of c_api.cpp, lines 309-320. The `std::string` that a
handler builds is taken as built before `dup_str` is called. -/
def pw_close_wallet {σ : Type} (E : Engine σ) (A : Allocator) (wallet_id : Int) :
    World σ → CStrResult × World σ :=
  lock_guard fun w =>
    match engine_call (E.close_wallet wallet_id) w with
    | (Outcome.returned result, w) => (dup_str A result, w)
    | (Outcome.std_exception e_what, w) =>
      (dup_str A (lit "\x7b\"error\": \"" ++ cstr_read e_what ++ lit "\"\x7d"), w)
    | (Outcome.other_throw, w) =>
      (dup_str A (lit "\x7b\"error\": \"Unknown exception in pw_close_wallet\"\x7d"), w)

/-- Source: `pw_get_opened_wallets` of c_api.cpp, lines 322-333. The `std::string` that a
handler builds is taken as built before `dup_str` is called. -/
def pw_get_opened_wallets {σ : Type} (E : Engine σ) (A : Allocator) :
    World σ → CStrResult × World σ :=
  lock_guard fun w =>
    match engine_call (E.get_opened_wallets) w with
    | (Outcome.returned result, w) => (dup_str A result, w)
    | (Outcome.std_exception e_what, w) =>
      (dup_str A (lit "\x7b\"error\": \"" ++ cstr_read e_what ++ lit "\"\x7d"), w)
    | (Outcome.other_throw, w) =>
      (dup_str A (lit "\x7b\"error\": \"Unknown exception in pw_get_opened_wallets\"\x7d"), w)

/-- Source: `pw_get_wallet_status` of c_api.cpp, lines 339-350. The `std::string` that a
handler builds is taken as built before `dup_str` is called. -/
def pw_get_wallet_status {σ : Type} (E : Engine σ) (A : Allocator) (wallet_id : Int) :
    World σ → CStrResult × World σ :=
  lock_guard fun w =>
    match engine_call (E.get_wallet_status wallet_id) w with
    | (Outcome.returned result, w) => (dup_str A result, w)
    | (Outcome.std_exception e_what, w) =>
      (dup_str A (lit "\x7b\"error\": \"" ++ cstr_read e_what ++ lit "\"\x7d"), w)
    | (Outcome.other_throw, w) =>
      (dup_str A (lit "\x7b\"error\": \"Unknown exception in pw_get_wallet_status\"\x7d"), w)

/-- Source: `pw_get_wallet_info` of c_api.cpp, lines 352-363. The `std::string` that a
handler builds is taken as built before `dup_str` is called. -/
def pw_get_wallet_info {σ : Type} (E : Engine σ) (A : Allocator) (wallet_id : Int) :
    World σ → CStrResult × World σ :=
  lock_guard fun w =>
    match engine_call (E.get_wallet_info wallet_id) w with
    | (Outcome.returned result, w) => (dup_str A result, w)
    | (Outcome.std_exception e_what, w) =>
      (dup_str A (lit "\x7b\"error\": \"" ++ cstr_read e_what ++ lit "\"\x7d"), w)
    | (Outcome.other_throw, w) =>
      (dup_str A (lit "\x7b\"error\": \"Unknown exception in pw_get_wallet_info\"\x7d"), w)

/-- Source: `pw_reset_wallet_password` of c_api.cpp, lines 365-376. The `std::string` that a
handler builds is taken as built before `dup_str` is called. -/
def pw_reset_wallet_password {σ : Type} (E : Engine σ) (A : Allocator)
    (wallet_id : Int) (new_password : CPtr) :
    World σ → CStrResult × World σ :=
  lock_guard fun w =>
    match engine_call (E.reset_wallet_password wallet_id (safe_str new_password)) w with
    | (Outcome.returned result, w) => (dup_str A result, w)
    | (Outcome.std_exception e_what, w) =>
      (dup_str A (lit "\x7b\"error\": \"" ++ cstr_read e_what ++ lit "\"\x7d"), w)
    | (Outcome.other_throw, w) =>
      (dup_str A (lit "\x7b\"error\": \"Unknown exception in pw_reset_wallet_password\"\x7d"), w)

/-- Source: `pw_invoke` of c_api.cpp, lines 378-389. The `std::string` that a
handler builds is taken as built before `dup_str` is called. -/
def pw_invoke {σ : Type} (E : Engine σ) (A : Allocator) (wallet_id : Int) (params : CPtr) :
    World σ → CStrResult × World σ :=
  lock_guard fun w =>
    match engine_call (E.invoke wallet_id (safe_str params)) w with
    | (Outcome.returned result, w) => (dup_str A result, w)
    | (Outcome.std_exception e_what, w) =>
      (dup_str A (lit "\x7b\"error\": \"" ++ cstr_read e_what ++ lit "\"\x7d"), w)
    | (Outcome.other_throw, w) =>
      (dup_str A (lit "\x7b\"error\": \"Unknown exception in pw_invoke\"\x7d"), w)

/-- Source: `pw_async_call` of c_api.cpp, lines 404-415. The `std::string` that a
handler builds is taken as built before `dup_str` is called. -/
def pw_async_call {σ : Type} (E : Engine σ) (A : Allocator)
    (method_name : CPtr) (wallet_id : Int) (params : CPtr) :
    World σ → CStrResult × World σ :=
  lock_guard fun w =>
    match engine_call (E.async_call (safe_str method_name) wallet_id (safe_str params)) w with
    | (Outcome.returned result, w) => (dup_str A result, w)
    | (Outcome.std_exception e_what, w) =>
      (dup_str A (lit "\x7b\"error\": \"" ++ cstr_read e_what ++ lit "\"\x7d"), w)
    | (Outcome.other_throw, w) =>
      (dup_str A (lit "\x7b\"error\": \"Unknown exception in pw_async_call\"\x7d"), w)

/-- Source: `pw_try_pull_result` of c_api.cpp, lines 417-428. The `std::string` that a
handler builds is taken as built before `dup_str` is called. -/
def pw_try_pull_result {σ : Type} (E : Engine σ) (A : Allocator) (job_id : Nat) :
    World σ → CStrResult × World σ :=
  lock_guard fun w =>
    match engine_call (E.try_pull_result job_id) w with
    | (Outcome.returned result, w) => (dup_str A result, w)
    | (Outcome.std_exception e_what, w) =>
      (dup_str A (lit "\x7b\"error\": \"" ++ cstr_read e_what ++ lit "\"\x7d"), w)
    | (Outcome.other_throw, w) =>
      (dup_str A (lit "\x7b\"error\": \"Unknown exception in pw_try_pull_result\"\x7d"), w)

/-- Source: `pw_sync_call` of c_api.cpp, lines 430-441. The `std::string` that a
handler builds is taken as built before `dup_str` is called. -/
def pw_sync_call {σ : Type} (E : Engine σ) (A : Allocator)
    (method_name : CPtr) (instance_id : Nat) (params : CPtr) :
    World σ → CStrResult × World σ :=
  lock_guard fun w =>
    match engine_call (E.sync_call (safe_str method_name) instance_id (safe_str params)) w with
    | (Outcome.returned result, w) => (dup_str A result, w)
    | (Outcome.std_exception e_what, w) =>
      (dup_str A (lit "\x7b\"error\": \"" ++ cstr_read e_what ++ lit "\"\x7d"), w)
    | (Outcome.other_throw, w) =>
      (dup_str A (lit "\x7b\"error\": \"Unknown exception in pw_sync_call\"\x7d"), w)

/-- Source: `pw_is_wallet_exist` of c_api.cpp, lines 140-147. -/
def pw_is_wallet_exist {σ : Type} (E : Engine σ) (path : CPtr) :
    World σ → Bool × World σ :=
  lock_guard fun w =>
    match engine_call (E.is_wallet_exist (safe_str path)) w with
    | (Outcome.returned result, w) => (result, w)
    | (Outcome.std_exception _, w) => (false, w)
    | (Outcome.other_throw, w) => (false, w)

/-- Source: `pw_get_current_tx_fee` of c_api.cpp, lines 391-398. -/
def pw_get_current_tx_fee {σ : Type} (E : Engine σ) (priority : Nat) :
    World σ → Nat × World σ :=
  lock_guard fun w =>
    match engine_call (E.get_current_tx_fee priority) w with
    | (Outcome.returned result, w) => (result, w)
    | (Outcome.std_exception _, w) => (0, w)
    | (Outcome.other_throw, w) => (0, w)

/-! ## The string-returning entry points as one family -/

/-- A call of one of the string-returning entry points, with its arguments. -/
inductive StrEntry where
  | pw_init (daemon_url : CPtr) (workdir : CPtr) (log_level : Int) : StrEntry
  | pw_init_ip_port (ip : CPtr) (port : CPtr) (workdir : CPtr) (log_level : Int) : StrEntry
  | pw_reset : StrEntry
  | pw_set_log_level (log_level : Int) : StrEntry
  | pw_get_version : StrEntry
  | pw_get_wallet_files : StrEntry
  | pw_delete_wallet (file_name : CPtr) : StrEntry
  | pw_get_export_private_info (target_dir : CPtr) : StrEntry
  | pw_get_appconfig (encryption_key : CPtr) : StrEntry
  | pw_set_appconfig (conf_str : CPtr) (encryption_key : CPtr) : StrEntry
  | pw_generate_random_key (length : Nat) : StrEntry
  | pw_get_logs_buffer : StrEntry
  | pw_truncate_log : StrEntry
  | pw_get_connectivity_status : StrEntry
  | pw_get_address_info (addr : CPtr) : StrEntry
  | pw_generate (path : CPtr) (password : CPtr) : StrEntry
  | pw_restore (seed : CPtr) (path : CPtr) (password : CPtr) (seed_password : CPtr) : StrEntry
  | pw_open (path : CPtr) (password : CPtr) : StrEntry
  | pw_close_wallet (wallet_id : Int) : StrEntry
  | pw_get_opened_wallets : StrEntry
  | pw_get_wallet_status (wallet_id : Int) : StrEntry
  | pw_get_wallet_info (wallet_id : Int) : StrEntry
  | pw_reset_wallet_password (wallet_id : Int) (new_password : CPtr) : StrEntry
  | pw_invoke (wallet_id : Int) (params : CPtr) : StrEntry
  | pw_async_call (method_name : CPtr) (wallet_id : Int) (params : CPtr) : StrEntry
  | pw_try_pull_result (job_id : Nat) : StrEntry
  | pw_sync_call (method_name : CPtr) (instance_id : Nat) (params : CPtr) : StrEntry

/-- The name of the entry point called. -/
def StrEntry.name : StrEntry → String
  | StrEntry.pw_init _ _ _ => "pw_init"
  | StrEntry.pw_init_ip_port _ _ _ _ => "pw_init_ip_port"
  | StrEntry.pw_reset => "pw_reset"
  | StrEntry.pw_set_log_level _ => "pw_set_log_level"
  | StrEntry.pw_get_version => "pw_get_version"
  | StrEntry.pw_get_wallet_files => "pw_get_wallet_files"
  | StrEntry.pw_delete_wallet _ => "pw_delete_wallet"
  | StrEntry.pw_get_export_private_info _ => "pw_get_export_private_info"
  | StrEntry.pw_get_appconfig _ => "pw_get_appconfig"
  | StrEntry.pw_set_appconfig _ _ => "pw_set_appconfig"
  | StrEntry.pw_generate_random_key _ => "pw_generate_random_key"
  | StrEntry.pw_get_logs_buffer => "pw_get_logs_buffer"
  | StrEntry.pw_truncate_log => "pw_truncate_log"
  | StrEntry.pw_get_connectivity_status => "pw_get_connectivity_status"
  | StrEntry.pw_get_address_info _ => "pw_get_address_info"
  | StrEntry.pw_generate _ _ => "pw_generate"
  | StrEntry.pw_restore _ _ _ _ => "pw_restore"
  | StrEntry.pw_open _ _ => "pw_open"
  | StrEntry.pw_close_wallet _ => "pw_close_wallet"
  | StrEntry.pw_get_opened_wallets => "pw_get_opened_wallets"
  | StrEntry.pw_get_wallet_status _ => "pw_get_wallet_status"
  | StrEntry.pw_get_wallet_info _ => "pw_get_wallet_info"
  | StrEntry.pw_reset_wallet_password _ _ => "pw_reset_wallet_password"
  | StrEntry.pw_invoke _ _ => "pw_invoke"
  | StrEntry.pw_async_call _ _ _ => "pw_async_call"
  | StrEntry.pw_try_pull_result _ => "pw_try_pull_result"
  | StrEntry.pw_sync_call _ _ _ => "pw_sync_call"

/-- Running a call of a string-returning entry point. -/
def StrEntry.run {σ : Type} (E : Engine σ) (A : Allocator) : StrEntry → World σ → CStrResult × World σ
  | StrEntry.pw_init daemon_url workdir log_level => ZanoNative.pw_init E A daemon_url workdir log_level
  | StrEntry.pw_init_ip_port ip port workdir log_level => ZanoNative.pw_init_ip_port E A ip port workdir log_level
  | StrEntry.pw_reset => ZanoNative.pw_reset E A
  | StrEntry.pw_set_log_level log_level => ZanoNative.pw_set_log_level E A log_level
  | StrEntry.pw_get_version => ZanoNative.pw_get_version E A
  | StrEntry.pw_get_wallet_files => ZanoNative.pw_get_wallet_files E A
  | StrEntry.pw_delete_wallet file_name => ZanoNative.pw_delete_wallet E A file_name
  | StrEntry.pw_get_export_private_info target_dir => ZanoNative.pw_get_export_private_info E A target_dir
  | StrEntry.pw_get_appconfig encryption_key => ZanoNative.pw_get_appconfig E A encryption_key
  | StrEntry.pw_set_appconfig conf_str encryption_key => ZanoNative.pw_set_appconfig E A conf_str encryption_key
  | StrEntry.pw_generate_random_key length => ZanoNative.pw_generate_random_key E A length
  | StrEntry.pw_get_logs_buffer => ZanoNative.pw_get_logs_buffer E A
  | StrEntry.pw_truncate_log => ZanoNative.pw_truncate_log E A
  | StrEntry.pw_get_connectivity_status => ZanoNative.pw_get_connectivity_status E A
  | StrEntry.pw_get_address_info addr => ZanoNative.pw_get_address_info E A addr
  | StrEntry.pw_generate path password => ZanoNative.pw_generate E A path password
  | StrEntry.pw_restore seed path password seed_password => ZanoNative.pw_restore E A seed path password seed_password
  | StrEntry.pw_open path password => ZanoNative.pw_open E A path password
  | StrEntry.pw_close_wallet wallet_id => ZanoNative.pw_close_wallet E A wallet_id
  | StrEntry.pw_get_opened_wallets => ZanoNative.pw_get_opened_wallets E A
  | StrEntry.pw_get_wallet_status wallet_id => ZanoNative.pw_get_wallet_status E A wallet_id
  | StrEntry.pw_get_wallet_info wallet_id => ZanoNative.pw_get_wallet_info E A wallet_id
  | StrEntry.pw_reset_wallet_password wallet_id new_password => ZanoNative.pw_reset_wallet_password E A wallet_id new_password
  | StrEntry.pw_invoke wallet_id params => ZanoNative.pw_invoke E A wallet_id params
  | StrEntry.pw_async_call method_name wallet_id params => ZanoNative.pw_async_call E A method_name wallet_id params
  | StrEntry.pw_try_pull_result job_id => ZanoNative.pw_try_pull_result E A job_id
  | StrEntry.pw_sync_call method_name instance_id params => ZanoNative.pw_sync_call E A method_name instance_id params

/-- The engine operation an entry point invokes, read off its `try` block:
the `plain_wallet` function with the arguments it is given. -/
def StrEntry.engine_op {σ : Type} (E : Engine σ) : StrEntry → σ → Outcome StdString × σ
  | StrEntry.pw_init daemon_url workdir log_level => E.init (safe_str daemon_url) (safe_str workdir) log_level
  | StrEntry.pw_init_ip_port ip port workdir log_level => E.init_ip_port (safe_str ip) (safe_str port) (safe_str workdir) log_level
  | StrEntry.pw_reset => E.reset
  | StrEntry.pw_set_log_level log_level => E.set_log_level log_level
  | StrEntry.pw_get_version => E.get_version
  | StrEntry.pw_get_wallet_files => E.get_wallet_files
  | StrEntry.pw_delete_wallet file_name => E.delete_wallet (safe_str file_name)
  | StrEntry.pw_get_export_private_info target_dir => E.get_export_private_info (safe_str target_dir)
  | StrEntry.pw_get_appconfig encryption_key => E.get_appconfig (safe_str encryption_key)
  | StrEntry.pw_set_appconfig conf_str encryption_key => E.set_appconfig (safe_str conf_str) (safe_str encryption_key)
  | StrEntry.pw_generate_random_key length => E.generate_random_key length
  | StrEntry.pw_get_logs_buffer => E.get_logs_buffer
  | StrEntry.pw_truncate_log => E.truncate_log
  | StrEntry.pw_get_connectivity_status => E.get_connectivity_status
  | StrEntry.pw_get_address_info addr => E.get_address_info (safe_str addr)
  | StrEntry.pw_generate path password => E.generate (safe_str path) (safe_str password)
  | StrEntry.pw_restore seed path password seed_password => E.restore (safe_str seed) (safe_str path) (safe_str password) (safe_str seed_password)
  | StrEntry.pw_open path password => E.open_ (safe_str path) (safe_str password)
  | StrEntry.pw_close_wallet wallet_id => E.close_wallet wallet_id
  | StrEntry.pw_get_opened_wallets => E.get_opened_wallets
  | StrEntry.pw_get_wallet_status wallet_id => E.get_wallet_status wallet_id
  | StrEntry.pw_get_wallet_info wallet_id => E.get_wallet_info wallet_id
  | StrEntry.pw_reset_wallet_password wallet_id new_password => E.reset_wallet_password wallet_id (safe_str new_password)
  | StrEntry.pw_invoke wallet_id params => E.invoke wallet_id (safe_str params)
  | StrEntry.pw_async_call method_name wallet_id params => E.async_call (safe_str method_name) wallet_id (safe_str params)
  | StrEntry.pw_try_pull_result job_id => E.try_pull_result job_id
  | StrEntry.pw_sync_call method_name instance_id params => E.sync_call (safe_str method_name) instance_id (safe_str params)

/-- Rewriting the string arguments of a call: `f i` is applied to the `i`-th
`const char*` parameter, counted from 0 in declaration order. -/
def StrEntry.mapStrArgs (f : Nat → CPtr → CPtr) : StrEntry → StrEntry
  | StrEntry.pw_init daemon_url workdir log_level => StrEntry.pw_init (f 0 daemon_url) (f 1 workdir) log_level
  | StrEntry.pw_init_ip_port ip port workdir log_level => StrEntry.pw_init_ip_port (f 0 ip) (f 1 port) (f 2 workdir) log_level
  | StrEntry.pw_reset => StrEntry.pw_reset
  | StrEntry.pw_set_log_level log_level => StrEntry.pw_set_log_level log_level
  | StrEntry.pw_get_version => StrEntry.pw_get_version
  | StrEntry.pw_get_wallet_files => StrEntry.pw_get_wallet_files
  | StrEntry.pw_delete_wallet file_name => StrEntry.pw_delete_wallet (f 0 file_name)
  | StrEntry.pw_get_export_private_info target_dir => StrEntry.pw_get_export_private_info (f 0 target_dir)
  | StrEntry.pw_get_appconfig encryption_key => StrEntry.pw_get_appconfig (f 0 encryption_key)
  | StrEntry.pw_set_appconfig conf_str encryption_key => StrEntry.pw_set_appconfig (f 0 conf_str) (f 1 encryption_key)
  | StrEntry.pw_generate_random_key length => StrEntry.pw_generate_random_key length
  | StrEntry.pw_get_logs_buffer => StrEntry.pw_get_logs_buffer
  | StrEntry.pw_truncate_log => StrEntry.pw_truncate_log
  | StrEntry.pw_get_connectivity_status => StrEntry.pw_get_connectivity_status
  | StrEntry.pw_get_address_info addr => StrEntry.pw_get_address_info (f 0 addr)
  | StrEntry.pw_generate path password => StrEntry.pw_generate (f 0 path) (f 1 password)
  | StrEntry.pw_restore seed path password seed_password => StrEntry.pw_restore (f 0 seed) (f 1 path) (f 2 password) (f 3 seed_password)
  | StrEntry.pw_open path password => StrEntry.pw_open (f 0 path) (f 1 password)
  | StrEntry.pw_close_wallet wallet_id => StrEntry.pw_close_wallet wallet_id
  | StrEntry.pw_get_opened_wallets => StrEntry.pw_get_opened_wallets
  | StrEntry.pw_get_wallet_status wallet_id => StrEntry.pw_get_wallet_status wallet_id
  | StrEntry.pw_get_wallet_info wallet_id => StrEntry.pw_get_wallet_info wallet_id
  | StrEntry.pw_reset_wallet_password wallet_id new_password => StrEntry.pw_reset_wallet_password wallet_id (f 0 new_password)
  | StrEntry.pw_invoke wallet_id params => StrEntry.pw_invoke wallet_id (f 0 params)
  | StrEntry.pw_async_call method_name wallet_id params => StrEntry.pw_async_call (f 0 method_name) wallet_id (f 1 params)
  | StrEntry.pw_try_pull_result job_id => StrEntry.pw_try_pull_result job_id
  | StrEntry.pw_sync_call method_name instance_id params => StrEntry.pw_sync_call (f 0 method_name) instance_id (f 1 params)

/-! ## The host-bridged transport (transport_js.cpp) -/

/-- A JavaScript string, as the sequence of its Unicode scalar values. -/
abbrev JSString := List Char

/-- Emscripten runtime function `lengthBytesUTF8`: the number of bytes of the
UTF-8 encoding of a string, terminator not counted. -/
def lengthBytesUTF8 (str : JSString) : Nat :=
  (str.map Char.utf8Size).sum

/-- The characters `stringToUTF8` encodes when `room` bytes are left before
the terminator: it stops at the first character that no longer fits. -/
def encodeWithin : JSString → Nat → List UInt8
  | [], _ => []
  | c :: cs, room =>
    if c.utf8Size ≤ room then String.utf8EncodeChar c ++ encodeWithin cs (room - c.utf8Size)
    else []

/-- Emscripten runtime function `stringToUTF8(str, outPtr, maxBytesToWrite)`:
the bytes it stores at `outPtr`. It writes at most `maxBytesToWrite` bytes,
the NUL terminator included, and nothing at all when `maxBytesToWrite` is 0. -/
def stringToUTF8 (str : JSString) (maxBytesToWrite : Nat) : List UInt8 :=
  if maxBytesToWrite = 0 then [] else encodeWithin str (maxBytesToWrite - 1) ++ [0]

/-- The value of a rejected promise or a thrown error: `message` is the
`message` property (`none` when it is undefined) and `toStr` the result of
`toString()`. -/
structure JSError where
  message : Option JSString
  toStr : JSString

/-- The `Response` of a fetch, with the outcome of `await response.text()`. -/
structure Response where
  ok : Bool
  status : Nat
  statusText : JSString
  text : Except JSError JSString

/-- How `await fetch(...)` ends. -/
inductive FetchOutcome where
  | resolved (response : Response) : FetchOutcome
  | rejected (err : JSError) : FetchOutcome

/-- The request `_fetch_http` hands to `fetch` (transport_js.cpp, lines 27-37). -/
structure FetchRequest where
  url : JSString
  method : JSString
  headers : List (JSString × JSString)
  body : JSString
  credentials : JSString
  cache : JSString
  mode : JSString

/-- The host of the sandboxed build: the decoder behind `UTF8ToString`, the
`fetch` primitive, and the allocator behind `_malloc`. -/
structure Host where
  UTF8Decode : List UInt8 → JSString
  fetch : FetchRequest → FetchOutcome
  heap : Allocator

/-- Emscripten runtime function `UTF8ToString(ptr)`: decodes the bytes from
`ptr` up to the first NUL. -/
def UTF8ToString (H : Host) (ptr : CBuf) : JSString :=
  H.UTF8Decode (cstr_read ptr)

/-- The argument of `fetch` in `_fetch_http` (transport_js.cpp, lines 20-37). -/
def fetch_request (H : Host) (url body content_type : CBuf) : FetchRequest :=
  let urlStr := UTF8ToString H url
  let bodyStr := UTF8ToString H body
  let contentTypeStr := UTF8ToString H content_type
  { url := urlStr
    method := "POST".data
    headers := [("Content-Type".data, contentTypeStr), ("Accept".data, "application/json".data)]
    body := bodyStr
    credentials := "omit".data
    cache := "no-store".data
    mode := "cors".data }

/-- The three statements `const ptr = _malloc(len); stringToUTF8(str, ptr, len);
return ptr;` of `_fetch_http`. When `_malloc` fails `ptr` is 0 and the caller
receives a null pointer. -/
def malloc_and_store (H : Host) (str : JSString) (len : Nat) : CPtr :=
  match H.heap.malloc len with
  | none => none
  | some block =>
    let written := stringToUTF8 str len
    some (memcpy block written written.length)

/-- The JavaScript expression `err.message || err.toString()`. -/
def message_or_toString (err : JSError) : JSString :=
  match err.message with
  | some m => if m.isEmpty then err.toStr else m
  | none => err.toStr

/-- The `catch (err)` block of `_fetch_http` (transport_js.cpp, lines 58-65). -/
def fetch_http_catch (H : Host) (err : JSError) : CPtr :=
  let errorMsg := "Fetch failed: ".data ++ message_or_toString err
  let len := lengthBytesUTF8 errorMsg + 1
  malloc_and_store H ("ERROR:".data ++ errorMsg) len

/-- Source: `_fetch_http` of transport_js.cpp, lines 19-67. The result is the
pointer it returns once the host has settled the request. -/
def _fetch_http (H : Host) (url body content_type : CBuf) : CPtr :=
  match H.fetch (fetch_request H url body content_type) with
  | FetchOutcome.resolved response =>
    if !response.ok then
      match response.text with
      | Except.ok errorText =>
        let errorMsg := "HTTP ".data ++ (Nat.repr response.status).data ++ ": ".data
          ++ response.statusText ++ "\n".data ++ errorText
        let len := lengthBytesUTF8 errorMsg + 1
        malloc_and_store H ("ERROR:".data ++ errorMsg) len
      | Except.error err => fetch_http_catch H err
    else
      match response.text with
      | Except.ok text =>
        let len := lengthBytesUTF8 text + 1
        malloc_and_store H text len
      | Except.error err => fetch_http_catch H err
  | FetchOutcome.rejected err => fetch_http_catch H err

/-- The C++ exceptions the transport can raise, with their `what()` text. -/
inductive CppException where
  | runtime_error (what : StdString) : CppException
  | out_of_range (what : StdString) : CppException
  deriving DecidableEq, Repr

/-- The state of the transport: the global `g_last_error` (transport_js.cpp,
line 14) and, for reference, the argument buffers of every `_fetch_http` call
made so far. -/
structure TransportState where
  g_last_error : StdString
  bridge_calls : List (CBuf × CBuf × CBuf)
  deriving DecidableEq, Repr

/-- The member `std::string::find(pattern)`: the position of the first
occurrence of `pattern`, `none` standing for `npos`. -/
def find : StdString → StdString → Option Nat
  | [], pattern => if pattern.isEmpty then some 0 else none
  | c :: rest, pattern =>
    if pattern.isPrefixOf (c :: rest) then some 0
    else (find rest pattern).map (fun i => i + 1)

/-- The member `std::string::substr(pos)`: it throws `std::out_of_range` when
`pos` exceeds the size. -/
def substr (s : StdString) (pos : Nat) : Except CppException StdString :=
  if pos > s.length then Except.error (CppException.out_of_range (lit "basic_string::substr"))
  else Except.ok (s.drop pos)

/-- Source: `transport::rpc_json` of transport_js.cpp, lines 71-96. -/
def rpc_json (H : Host) (url json_body : StdString) (st : TransportState) :
    Except CppException StdString × TransportState :=
  if url.isEmpty then
    let st := { st with g_last_error := lit "URL cannot be empty" }
    (Except.error (CppException.runtime_error (lit "Transport error: " ++ st.g_last_error)), st)
  else
    let result_ptr := _fetch_http H (c_str url) (c_str json_body) (c_str (lit "application/json"))
    let st := { st with bridge_calls :=
      st.bridge_calls ++ [(c_str url, c_str json_body, c_str (lit "application/json"))] }
    match result_ptr with
    | none =>
      let st := { st with g_last_error := lit "Fetch returned null pointer" }
      (Except.error (CppException.runtime_error (lit "Transport error: " ++ st.g_last_error)), st)
    | some p =>
      let result := cstr_read p
      if find result (lit "ERROR:") = some 0 then
        match substr result 6 with
        | Except.error e => (Except.error e, st)
        | Except.ok stripped =>
          let st := { st with g_last_error := stripped }
          (Except.error (CppException.runtime_error (lit "Transport error: " ++ st.g_last_error)),
            st)
      else
        (Except.ok result, { st with g_last_error := [] })

/-- Source: `transport::rpc_binary` of transport_js.cpp, lines 98-123. -/
def rpc_binary (H : Host) (url binary_body : StdString) (st : TransportState) :
    Except CppException StdString × TransportState :=
  if url.isEmpty then
    let st := { st with g_last_error := lit "URL cannot be empty" }
    (Except.error (CppException.runtime_error (lit "Transport error: " ++ st.g_last_error)), st)
  else
    let result_ptr := _fetch_http H (c_str url) (c_str binary_body) (c_str (lit "application/octet-stream"))
    let st := { st with bridge_calls :=
      st.bridge_calls ++ [(c_str url, c_str binary_body, c_str (lit "application/octet-stream"))] }
    match result_ptr with
    | none =>
      let st := { st with g_last_error := lit "Fetch returned null pointer" }
      (Except.error (CppException.runtime_error (lit "Transport error: " ++ st.g_last_error)), st)
    | some p =>
      let result := cstr_read p
      if find result (lit "ERROR:") = some 0 then
        match substr result 6 with
        | Except.error e => (Except.error e, st)
        | Except.ok stripped =>
          let st := { st with g_last_error := stripped }
          (Except.error (CppException.runtime_error (lit "Transport error: " ++ st.g_last_error)),
            st)
      else
        (Except.ok result, { st with g_last_error := [] })

/-- Source: `transport::is_ready` of transport_js.cpp, lines 125-128. -/
def is_ready : Bool := true

/-- Source: `transport::get_last_error` of transport_js.cpp, lines 130-132. -/
def get_last_error (st : TransportState) : StdString := st.g_last_error

/-! ## Reference points for the properties below -/

/-- An engine without state of its own in which every operation ends the same
way: `s` for the operations returning a string, `b` for `is_wallet_exist` and
`n` for `get_current_tx_fee`. -/
def Engine.always (s : Outcome StdString) (b : Outcome Bool) (n : Outcome Nat) : Engine Unit where
  init := fun _ _ _ u => (s, u)
  init_ip_port := fun _ _ _ _ u => (s, u)
  reset := fun u => (s, u)
  set_log_level := fun _ u => (s, u)
  get_version := fun u => (s, u)
  get_wallet_files := fun u => (s, u)
  delete_wallet := fun _ u => (s, u)
  is_wallet_exist := fun _ u => (b, u)
  get_export_private_info := fun _ u => (s, u)
  get_appconfig := fun _ u => (s, u)
  set_appconfig := fun _ _ u => (s, u)
  generate_random_key := fun _ u => (s, u)
  get_logs_buffer := fun u => (s, u)
  truncate_log := fun u => (s, u)
  get_connectivity_status := fun u => (s, u)
  get_address_info := fun _ u => (s, u)
  generate := fun _ _ u => (s, u)
  restore := fun _ _ _ _ u => (s, u)
  open_ := fun _ _ u => (s, u)
  close_wallet := fun _ u => (s, u)
  get_opened_wallets := fun u => (s, u)
  get_wallet_status := fun _ u => (s, u)
  get_wallet_info := fun _ u => (s, u)
  reset_wallet_password := fun _ _ u => (s, u)
  invoke := fun _ _ u => (s, u)
  get_current_tx_fee := fun _ u => (n, u)
  async_call := fun _ _ _ u => (s, u)
  try_pull_result := fun _ u => (s, u)
  sync_call := fun _ _ _ u => (s, u)

/-- An engine without state that answers `restore` with its four arguments,
each followed by a semicolon, and everything else with the empty string. -/
def Engine.echo : Engine Unit :=
  { Engine.always (Outcome.returned []) (Outcome.returned false) (Outcome.returned 0) with
    restore := fun seed path password seed_password u =>
      (Outcome.returned (seed ++ lit ";" ++ path ++ lit ";" ++ password ++ lit ";"
        ++ seed_password ++ lit ";"), u) }

/-- The world before any boundary call. -/
def World.start : World Unit := { engine := (), trace := [] }

/-- The transport before any call. -/
def TransportState.start : TransportState := { g_last_error := [], bridge_calls := [] }

/-- A decoder for byte strings that holds ASCII only: every byte is read as
the character with that code. -/
def decodeBytewise (bytes : List UInt8) : JSString :=
  bytes.map (fun b => Char.ofNat b.toNat)

/-- A host whose `fetch` settles every request with `outcome` and whose
allocator is `heap`. -/
def Host.answering (outcome : FetchOutcome) (heap : Allocator) : Host where
  UTF8Decode := decodeBytewise
  fetch _ := outcome
  heap := heap

/-- Whether a fetch ended in failure: a response whose `ok` is false, or a
rejection. -/
def FetchOutcome.failed : FetchOutcome → Bool
  | FetchOutcome.resolved response => !response.ok
  | FetchOutcome.rejected _ => true

/-! ## JSON reading of an error envelope

The spec asks that a failure envelope be the JSON text `{"error": "<message>"}`.
The functions below read such a text by the grammar of RFC 8259. -/

/-- JSON whitespace. -/
def isJsonWs (b : UInt8) : Bool := b == 0x20 || b == 0x09 || b == 0x0A || b == 0x0D

/-- The value of a hexadecimal digit. -/
def hexDigit (b : UInt8) : Option Nat :=
  if 0x30 ≤ b.toNat ∧ b.toNat ≤ 0x39 then some (b.toNat - 0x30)
  else if 0x41 ≤ b.toNat ∧ b.toNat ≤ 0x46 then some (b.toNat - 0x41 + 10)
  else if 0x61 ≤ b.toNat ∧ b.toNat ≤ 0x66 then some (b.toNat - 0x61 + 10)
  else none

/-- Four hexadecimal digits and what follows them. -/
def hex4 : List UInt8 → Option (Nat × List UInt8)
  | a :: b :: c :: d :: rest =>
    match hexDigit a, hexDigit b, hexDigit c, hexDigit d with
    | some a, some b, some c, some d => some (((a * 16 + b) * 16 + c) * 16 + d, rest)
    | _, _, _, _ => none
  | _ => none

/-- The UTF-8 bytes of the code point `n`; a lone surrogate reads as U+FFFD. -/
def utf8OfCodePoint (n : Nat) : List UInt8 :=
  if 0xD800 ≤ n ∧ n ≤ 0xDFFF then String.utf8EncodeChar (Char.ofNat 0xFFFD)
  else String.utf8EncodeChar (Char.ofNat n)

/-- The rest of a JSON string after its opening quote: the bytes it denotes
and the input after the closing quote. A raw control character, a raw quote
inside, or an unknown escape make the text ill-formed. -/
def jsonStringTail : Nat → List UInt8 → Option (StdString × List UInt8)
  | 0, _ => none
  | _ + 1, [] => none
  | fuel + 1, c :: rest =>
    if c = 0x22 then some ([], rest)
    else if c = 0x5C then
      match rest with
      | [] => none
      | e :: rest =>
        let simple (b : UInt8) := (jsonStringTail fuel rest).map (fun r => (b :: r.1, r.2))
        if e = 0x22 then simple 0x22
        else if e = 0x5C then simple 0x5C
        else if e = 0x2F then simple 0x2F
        else if e = 0x62 then simple 0x08
        else if e = 0x66 then simple 0x0C
        else if e = 0x6E then simple 0x0A
        else if e = 0x72 then simple 0x0D
        else if e = 0x74 then simple 0x09
        else if e = 0x75 then
          match hex4 rest with
          | none => none
          | some (hi, rest) =>
            let single := (jsonStringTail fuel rest).map
              (fun r => (utf8OfCodePoint hi ++ r.1, r.2))
            if 0xD800 ≤ hi ∧ hi ≤ 0xDBFF then
              match rest with
              | 0x5C :: 0x75 :: rest2 =>
                match hex4 rest2 with
                | some (lo, rest3) =>
                  if 0xDC00 ≤ lo ∧ lo ≤ 0xDFFF then
                    (jsonStringTail fuel rest3).map (fun r =>
                      (utf8OfCodePoint (0x10000 + (hi - 0xD800) * 0x400 + (lo - 0xDC00)) ++ r.1,
                        r.2))
                  else single
                | none => single
              | _ => single
            else single
        else none
    else if c.toNat < 0x20 then none
    else (jsonStringTail fuel rest).map (fun r => (c :: r.1, r.2))

/-- A JSON string at the head of the input: the bytes it denotes and the rest
of the input. -/
def jsonString : List UInt8 → Option (StdString × List UInt8)
  | c :: rest => if c = 0x22 then jsonStringTail (rest.length + 1) rest else none
  | [] => none

/-- The `error` member of a JSON text that is an object with the single member
`error` holding a string; `none` for any other text. -/
def json_error_member (text : List UInt8) : Option StdString :=
  match text.dropWhile isJsonWs with
  | open_brace :: rest =>
    if open_brace = 0x7B then
      match jsonString (rest.dropWhile isJsonWs) with
      | some (key, rest) =>
        match rest.dropWhile isJsonWs with
        | colon :: rest =>
          if colon = 0x3A then
            match jsonString (rest.dropWhile isJsonWs) with
            | some (value, rest) =>
              match rest.dropWhile isJsonWs with
              | close_brace :: rest =>
                if close_brace = 0x7D ∧ rest.dropWhile isJsonWs = [] ∧ key = lit "error" then
                  some value
                else none
              | [] => none
            | none => none
          else none
        | [] => none
      | none => none
    else none
  | [] => none

/-! ## The native transport (transport_native.cpp) -/

/-- The state of the native transport: the global `g_last_error` of
transport_native.cpp, line 12. -/
structure NativeState where
  g_last_error : StdString
  deriving DecidableEq, Repr

/-- Source: `transport::rpc_json` of transport_native.cpp, lines 21-24. -/
def Native.rpc_json (_url _json_body : StdString) (st : NativeState) :
    Except CppException StdString × NativeState :=
  let st := { st with
    g_last_error := lit "Native transport not implemented - use plain_wallet native HTTP client" }
  (Except.error (CppException.runtime_error st.g_last_error), st)

/-- Source: `transport::rpc_binary` of transport_native.cpp, lines 26-29. -/
def Native.rpc_binary (_url _binary_body : StdString) (st : NativeState) :
    Except CppException StdString × NativeState :=
  let st := { st with
    g_last_error := lit "Native transport not implemented - use plain_wallet native HTTP client" }
  (Except.error (CppException.runtime_error st.g_last_error), st)

/-- Source: `transport::is_ready` of transport_native.cpp, lines 31-33. -/
def Native.is_ready : Bool := false

/-- Source: `transport::get_last_error` of transport_native.cpp, lines 35-37. -/
def Native.get_last_error (st : NativeState) : StdString := st.g_last_error

/-! ## The mutex along a trace, and threads at the boundary -/

/-- The state of `g_api_mutex` (`true` when held) at each engine step of a
trace, read from left to right; `held` is its state before the trace. -/
def mutex_at_engine_steps : Bool → List Event → List Bool
  | _, [] => []
  | _, Event.lock :: rest => mutex_at_engine_steps true rest
  | _, Event.unlock :: rest => mutex_at_engine_steps false rest
  | held, Event.engine_enter :: rest => held :: mutex_at_engine_steps held rest
  | held, Event.engine_exit :: rest => held :: mutex_at_engine_steps held rest

/-- The state of `g_api_mutex` after a trace. -/
def mutex_after : Bool → List Event → Bool
  | held, [] => held
  | _, Event.lock :: rest => mutex_after true rest
  | _, Event.unlock :: rest => mutex_after false rest
  | held, Event.engine_enter :: rest => mutex_after held rest
  | held, Event.engine_exit :: rest => mutex_after held rest

/-- Threads that make boundary calls side by side: the thread that holds
`g_api_mutex` if any, the steps each thread has still to take, and whether
each thread is inside the engine. -/
structure Threads where
  owner : Option Nat
  todo : Nat → List Event
  in_engine : Nat → Bool

/-- One step of thread `t`, by the rules of `std::mutex`: `lock` goes through
only while the mutex is free, `unlock` is the owner's. `none` when the thread
has nothing to do or has to wait. -/
def Threads.step (s : Threads) (t : Nat) : Option Threads :=
  match s.todo t with
  | [] => none
  | Event.lock :: rest =>
    if s.owner = none then
      some { owner := some t, todo := Function.update s.todo t rest, in_engine := s.in_engine }
    else none
  | Event.unlock :: rest =>
    if s.owner = some t then
      some { owner := none, todo := Function.update s.todo t rest, in_engine := s.in_engine }
    else none
  | Event.engine_enter :: rest =>
    some { owner := s.owner, todo := Function.update s.todo t rest,
           in_engine := Function.update s.in_engine t true }
  | Event.engine_exit :: rest =>
    some { owner := s.owner, todo := Function.update s.todo t rest,
           in_engine := Function.update s.in_engine t false }

/-- The steps of a schedule, one thread after the other; `none` when the
schedule asks a thread for a step it cannot take. -/
def Threads.run : Threads → List Nat → Option Threads
  | s, [] => some s
  | s, t :: schedule =>
    match s.step t with
    | none => none
    | some s2 => Threads.run s2 schedule

/-- Threads before any step: the mutex is free, nobody is inside the engine,
and thread `t` is about to make `calls t` boundary calls, each of which takes
the four steps `lock`, `engine_enter`, `engine_exit`, `unlock`. -/
def Threads.start (calls : Nat → Nat) : Threads where
  owner := none
  todo t := (List.replicate (calls t)
    [Event.lock, Event.engine_enter, Event.engine_exit, Event.unlock]).flatten
  in_engine _ := false

/-- Whether the steps a thread has still to take keep to the order of a
`lock_guard` scope around an engine call, given whether the thread holds the
mutex and whether it is inside the engine. -/
def lock_discipline : Bool → Bool → List Event → Bool
  | _, false, [] => true
  | false, false, Event.lock :: rest => lock_discipline true false rest
  | true, false, Event.engine_enter :: rest => lock_discipline true true rest
  | true, true, Event.engine_exit :: rest => lock_discipline true false rest
  | true, false, Event.unlock :: rest => lock_discipline false false rest
  | _, _, _ => false

/-- Every thread keeps to the discipline: what it has still to do fits whether
it holds the mutex and whether it is inside the engine. -/
def Threads.disciplined (s : Threads) : Prop :=
  ∀ i, lock_discipline (decide (s.owner = some i)) (s.in_engine i) (s.todo i) = true

/-! ## The job queue behind `async_call` and `try_pull_result`

`plain_wallet::async_call` and `plain_wallet::try_pull_result` belong to the
engine, whose code is not under src/; c_api.cpp forwards to them. The queue
below follows sections 3 and 4.3 of the spec. -/

/-- Modelled from the spec: the result envelope (section 3), "either a success
payload or an error descriptor"; the engine code that builds it is not under
src/. -/
inductive Envelope where
  | success (payload : StdString) : Envelope
  | error (message : StdString) : Envelope
  deriving DecidableEq, Repr

/-- Modelled from the spec: the states of a job (section 3), the engine code
being outside src/. A job is created `Pending`, becomes `Running` when a worker
picks it up, then `Completed` or `Failed` with its stored envelope; a consumed
job is removed from the queue. -/
inductive JobState where
  | pending : JobState
  | running : JobState
  | completed (envelope : Envelope) : JobState
  | failed (envelope : Envelope) : JobState
  deriving DecidableEq, Repr

/-- Modelled from the spec: a job (section 3), the engine code being outside
src/: identifier, method name, target wallet handle, parameters, state. -/
structure Job where
  id : Nat
  method : StdString
  wallet : Int
  params : StdString
  state : JobState
  deriving DecidableEq, Repr

/-- Modelled from the spec: the Job Queue (section 4.3), the state behind
`plain_wallet::async_call` and `plain_wallet::try_pull_result`, which are not
under src/: the counter of job identifiers and the jobs not yet consumed,
oldest first. -/
structure JobQueue where
  next_id : Nat
  jobs : List Job
  deriving DecidableEq, Repr

/-- Modelled from the spec: the allow-list of asynchronous operations
(section 4.3), with the names documented for `pw_async_call` in c_api.h, line
231; the engine code that checks it is not under src/. -/
def async_methods : List StdString :=
  [lit "open", lit "close", lit "restore", lit "invoke", lit "get_wallet_status"]

/-- Modelled from the spec: what `enqueue` answers (section 4.3), the engine
code being outside src/: a job identifier, or the failure `UnsupportedMethod`. -/
inductive EnqueueResult where
  | job_id (id : Nat) : EnqueueResult
  | unsupported_method : EnqueueResult
  deriving DecidableEq, Repr

/-- Modelled from the spec: `enqueue(method, wallet_handle, params)` of
section 4.3, the engine code being outside src/. It "validates `method` is one
of a fixed allow-list", "fails with `UnsupportedMethod` otherwise", "issues a
strictly increasing job id" and "places the job in `Pending` state". -/
def JobQueue.enqueue (q : JobQueue) (method : StdString) (wallet : Int) (params : StdString) :
    EnqueueResult × JobQueue :=
  if method ∈ async_methods then
    (EnqueueResult.job_id q.next_id,
      { next_id := q.next_id + 1
        jobs := q.jobs ++ [{ id := q.next_id, method := method, wallet := wallet,
                             params := params, state := JobState.pending }] })
  else (EnqueueResult.unsupported_method, q)

/-- Modelled from the spec: the first half of a worker's turn (section 4.3),
the engine code being outside src/: the oldest pending job becomes `Running`. -/
def start_oldest : List Job → List Job
  | [] => []
  | job :: rest =>
    if job.state = JobState.pending then { job with state := JobState.running } :: rest
    else job :: start_oldest rest

/-- Modelled from the spec: the second half of a worker's turn (section 4.3),
the engine code being outside src/: the running job `id` stores the outcome of
its invocation, `Completed` for a success and `Failed` for an error. -/
def finish_job (id : Nat) (outcome : Envelope) : List Job → List Job
  | [] => []
  | job :: rest =>
    if job.id = id ∧ job.state = JobState.running then
      (match outcome with
        | Envelope.success _ => { job with state := JobState.completed outcome }
        | Envelope.error _ => { job with state := JobState.failed outcome }) :: rest
    else job :: finish_job id outcome rest

/-- Modelled from the spec: what `poll` answers (section 4.3), the engine code
being outside src/: in progress (`Pending`, `Running`), a terminal result
(`Completed`, `Failed`) with its envelope, or `NotFound`. -/
inductive PollResult where
  | pending : PollResult
  | running : PollResult
  | completed (envelope : Envelope) : PollResult
  | failed (envelope : Envelope) : PollResult
  | not_found : PollResult
  deriving DecidableEq, Repr

/-- Whether an answer of `poll` is a terminal result. -/
def PollResult.isTerminal : PollResult → Bool
  | PollResult.completed _ => true
  | PollResult.failed _ => true
  | _ => false

/-- Modelled from the spec: `poll(job_id)` of section 4.3, the engine code
being outside src/. An unknown id gives `NotFound`; a job in progress reports
its status and stays; a terminal job "returns the envelope and immediately
marks the job consumed/removed". -/
def JobQueue.poll (q : JobQueue) (id : Nat) : PollResult × JobQueue :=
  match q.jobs.find? (fun job => job.id == id) with
  | none => (PollResult.not_found, q)
  | some job =>
    match job.state with
    | JobState.pending => (PollResult.pending, q)
    | JobState.running => (PollResult.running, q)
    | JobState.completed envelope =>
      (PollResult.completed envelope,
        { q with jobs := q.jobs.eraseP (fun job => job.id == id) })
    | JobState.failed envelope =>
      (PollResult.failed envelope,
        { q with jobs := q.jobs.eraseP (fun job => job.id == id) })

/-- Modelled from the spec: the queue at process start, the engine code being
outside src/: no job yet. -/
def JobQueue.empty : JobQueue := { next_id := 1, jobs := [] }

/-- The identifiers in the queue are distinct and below the counter. -/
def JobQueue.well_formed (q : JobQueue) : Prop :=
  (∀ job ∈ q.jobs, job.id < q.next_id) ∧ (q.jobs.map Job.id).Nodup

/-- Job `j` has been issued and is no longer in the queue. -/
def JobQueue.consumed (q : JobQueue) (j : Nat) : Prop :=
  j < q.next_id ∧ ∀ job ∈ q.jobs, job.id ≠ j

/-- What can happen to the queue: a caller enqueues or polls, a worker picks
up the oldest pending job or finishes a running one. -/
inductive QueueOp where
  | enqueue (method : StdString) (wallet : Int) (params : StdString) : QueueOp
  | worker_start : QueueOp
  | worker_finish (id : Nat) (outcome : Envelope) : QueueOp
  | poll (id : Nat) : QueueOp
  deriving DecidableEq, Repr

/-- The queue after an operation. -/
def JobQueue.apply (q : JobQueue) : QueueOp → JobQueue
  | QueueOp.enqueue method wallet params => (q.enqueue method wallet params).2
  | QueueOp.worker_start => { q with jobs := start_oldest q.jobs }
  | QueueOp.worker_finish id outcome => { q with jobs := finish_job id outcome q.jobs }
  | QueueOp.poll id => (q.poll id).2

/-- The answers given, in order, to the polls of job `j` along a sequence of
operations. -/
def polls_of (j : Nat) : JobQueue → List QueueOp → List PollResult
  | _, [] => []
  | q, QueueOp.poll id :: ops =>
    if id = j then (q.poll id).1 :: polls_of j (q.apply (QueueOp.poll id)) ops
    else polls_of j (q.apply (QueueOp.poll id)) ops
  | q, op :: ops => polls_of j (q.apply op) ops

/-- At-most-once delivery on the answers to the polls of one job: once a
terminal result has been answered, every later answer is `NotFound`. -/
def delivered_at_most_once : List PollResult → Bool
  | [] => true
  | answer :: later =>
    if answer.isTerminal then later.all (fun a => a == PollResult.not_found)
    else delivered_at_most_once later

/-- Modelled from the spec: an engine whose `async_call` and `try_pull_result`
are `enqueue` and `poll` of the job queue (section 4.3), the engine code being
outside src/. A refused method is raised as the failure `UnsupportedMethod`
(section 7); `word_job_id` and `word_poll` stand for the JSON wording of the
answers, which the spec leaves open. The other operations play no part and
return the empty string. -/
def queue_engine (word_job_id : Nat → StdString) (word_poll : PollResult → StdString) :
    Engine JobQueue where
  init := fun _ _ _ q => (Outcome.returned [], q)
  init_ip_port := fun _ _ _ _ q => (Outcome.returned [], q)
  reset := fun q => (Outcome.returned [], q)
  set_log_level := fun _ q => (Outcome.returned [], q)
  get_version := fun q => (Outcome.returned [], q)
  get_wallet_files := fun q => (Outcome.returned [], q)
  delete_wallet := fun _ q => (Outcome.returned [], q)
  is_wallet_exist := fun _ q => (Outcome.returned false, q)
  get_export_private_info := fun _ q => (Outcome.returned [], q)
  get_appconfig := fun _ q => (Outcome.returned [], q)
  set_appconfig := fun _ _ q => (Outcome.returned [], q)
  generate_random_key := fun _ q => (Outcome.returned [], q)
  get_logs_buffer := fun q => (Outcome.returned [], q)
  truncate_log := fun q => (Outcome.returned [], q)
  get_connectivity_status := fun q => (Outcome.returned [], q)
  get_address_info := fun _ q => (Outcome.returned [], q)
  generate := fun _ _ q => (Outcome.returned [], q)
  restore := fun _ _ _ _ q => (Outcome.returned [], q)
  open_ := fun _ _ q => (Outcome.returned [], q)
  close_wallet := fun _ q => (Outcome.returned [], q)
  get_opened_wallets := fun q => (Outcome.returned [], q)
  get_wallet_status := fun _ q => (Outcome.returned [], q)
  get_wallet_info := fun _ q => (Outcome.returned [], q)
  reset_wallet_password := fun _ _ q => (Outcome.returned [], q)
  invoke := fun _ _ q => (Outcome.returned [], q)
  get_current_tx_fee := fun _ q => (Outcome.returned 0, q)
  async_call := fun method_name wallet_id params q =>
    match q.enqueue method_name wallet_id params with
    | (EnqueueResult.job_id n, q2) => (Outcome.returned (word_job_id n), q2)
    | (EnqueueResult.unsupported_method, q2) =>
      (Outcome.std_exception (c_str (lit "UnsupportedMethod")), q2)
  try_pull_result := fun job_id q =>
    (Outcome.returned (word_poll (q.poll job_id).1), (q.poll job_id).2)
  sync_call := fun _ _ _ q => (Outcome.returned [], q)

/-! ## Lemmas on C strings and `dup_str` -/

theorem cstr_read_append_nul (s rest : List UInt8) (h : (0 : UInt8) ∉ s) :
    cstr_read (s ++ 0 :: rest) = s := by
  induction s with
  | nil => simp [cstr_read]
  | cons a t ih =>
    have ha : a ≠ 0 := fun e => h (by simp [e])
    have ht : (0 : UInt8) ∉ t := fun e => h (by simp [e])
    have := ih ht
    simp only [cstr_read] at this
    simp [cstr_read, ha, this]

theorem cstr_read_c_str (s : StdString) (h : (0 : UInt8) ∉ s) :
    cstr_read (c_str s) = s :=
  cstr_read_append_nul s [] h

theorem nul_not_mem_cstr_read (p : CBuf) : (0 : UInt8) ∉ cstr_read p := by
  intro h
  have := List.mem_takeWhile_imp h
  simp at this

theorem set_last_of_length (l : List UInt8) (n : Nat) (b : CBuf)
    (hl : l.length = n) (hb : b.length = n + 1) :
    (memcpy b l n).set n 0 = l ++ [0] := by
  subst hl
  unfold memcpy
  rw [List.take_length]
  have hd : (b.drop l.length).length = 1 := by simp [hb]
  match hdrop : b.drop l.length, hd with
  | [x], _ => simp [List.set_append]

theorem dup_str_of_malloc (A : Allocator) (s : StdString)
    (h : (A.malloc (s.length + 1)).isSome) :
    dup_str A s = CStrResult.buffer (c_str s) := by
  unfold dup_str c_str
  cases s with
  | nil =>
    simp only [List.isEmpty_nil, if_true]
    simp only [List.length_nil, Nat.zero_add] at h
    cases hm : A.malloc 1 with
    | none => simp [hm] at h
    | some b =>
      have hb := A.malloc_size 1 b hm
      match b, hb with
      | [x], _ => simp
  | cons a t =>
    simp only [List.isEmpty_cons, Bool.false_eq_true, if_false]
    cases hm : A.malloc ((a :: t).length + 1) with
    | none =>
      rw [hm] at h
      cases h
    | some b =>
      have hb := A.malloc_size _ b hm
      simp only
      rw [set_last_of_length (a :: t) _ b rfl hb]

/-! ## Lemmas on the entry points -/

theorem run_fst_returned {σ : Type} (E : Engine σ) (A : Allocator) (e : StrEntry) (w : World σ)
    (r : StdString) (h : (e.engine_op E w.engine).1 = Outcome.returned r) :
    (e.run E A w).1 = dup_str A r := by
  cases e <;>
    simp only [StrEntry.run, StrEntry.engine_op, pw_init, pw_init_ip_port, pw_reset,
      pw_set_log_level, pw_get_version, pw_get_wallet_files, pw_delete_wallet,
      pw_get_export_private_info, pw_get_appconfig, pw_set_appconfig, pw_generate_random_key,
      pw_get_logs_buffer, pw_truncate_log, pw_get_connectivity_status, pw_get_address_info,
      pw_generate, pw_restore, pw_open, pw_close_wallet, pw_get_opened_wallets,
      pw_get_wallet_status, pw_get_wallet_info, pw_reset_wallet_password, pw_invoke,
      pw_async_call, pw_try_pull_result, pw_sync_call, lock_guard, engine_call] at h ⊢ <;>
    rw [h]

theorem run_fst_std_exception {σ : Type} (E : Engine σ) (A : Allocator) (e : StrEntry)
    (w : World σ) (e_what : CBuf)
    (h : (e.engine_op E w.engine).1 = Outcome.std_exception e_what) :
    (e.run E A w).1 = dup_str A (lit "\x7b\"error\": \"" ++ cstr_read e_what ++ lit "\"\x7d") := by
  cases e <;>
    simp only [StrEntry.run, StrEntry.engine_op, pw_init, pw_init_ip_port, pw_reset,
      pw_set_log_level, pw_get_version, pw_get_wallet_files, pw_delete_wallet,
      pw_get_export_private_info, pw_get_appconfig, pw_set_appconfig, pw_generate_random_key,
      pw_get_logs_buffer, pw_truncate_log, pw_get_connectivity_status, pw_get_address_info,
      pw_generate, pw_restore, pw_open, pw_close_wallet, pw_get_opened_wallets,
      pw_get_wallet_status, pw_get_wallet_info, pw_reset_wallet_password, pw_invoke,
      pw_async_call, pw_try_pull_result, pw_sync_call, lock_guard, engine_call] at h ⊢ <;>
    rw [h]

theorem run_fst_other_throw {σ : Type} (E : Engine σ) (A : Allocator) (e : StrEntry)
    (w : World σ) (h : (e.engine_op E w.engine).1 = Outcome.other_throw) :
    (e.run E A w).1 =
      dup_str A (lit "\x7b\"error\": \"Unknown exception in " ++ lit e.name ++ lit "\"\x7d") := by
  cases e <;>
    simp only [StrEntry.run, StrEntry.engine_op, pw_init, pw_init_ip_port, pw_reset,
      pw_set_log_level, pw_get_version, pw_get_wallet_files, pw_delete_wallet,
      pw_get_export_private_info, pw_get_appconfig, pw_set_appconfig, pw_generate_random_key,
      pw_get_logs_buffer, pw_truncate_log, pw_get_connectivity_status, pw_get_address_info,
      pw_generate, pw_restore, pw_open, pw_close_wallet, pw_get_opened_wallets,
      pw_get_wallet_status, pw_get_wallet_info, pw_reset_wallet_password, pw_invoke,
      pw_async_call, pw_try_pull_result, pw_sync_call, lock_guard, engine_call] at h ⊢ <;>
    rw [h] <;> rfl

theorem dup_str_of_malloc_none (A : Allocator) (s : StdString) (hs : s ≠ [])
    (h : A.malloc (s.length + 1) = none) : dup_str A s = CStrResult.null := by
  unfold dup_str
  cases s with
  | nil => exact absurd rfl hs
  | cons a t =>
    simp only [List.isEmpty_cons, Bool.false_eq_true, if_false]
    rw [h]

theorem nul_not_mem_lit_envelope_open : (0 : UInt8) ∉ lit "\x7b\"error\": \"" := by decide

theorem nul_not_mem_lit_envelope_close : (0 : UInt8) ∉ lit "\"\x7d" := by decide

theorem nul_not_mem_envelope (m : StdString) (h : (0 : UInt8) ∉ m) :
    (0 : UInt8) ∉ lit "\x7b\"error\": \"" ++ m ++ lit "\"\x7d" := by
  intro hmem
  rcases List.mem_append.mp hmem with h1 | h3
  · rcases List.mem_append.mp h1 with h1 | h2
    · exact nul_not_mem_lit_envelope_open h1
    · exact h h2
  · exact nul_not_mem_lit_envelope_close h3

theorem nul_not_mem_lit_name (e : StrEntry) : (0 : UInt8) ∉ lit e.name := by
  cases e <;> simp only [StrEntry.name] <;> decide

/-! ## Properties of the C API boundary -/

/-- C1 (amended). For each of the 27 string-returning entry points, provided
`malloc` supplies the result buffer: when the engine raises a `std::exception`
whose `what()` reads `m`, the call returns the error envelope
`{"error": "m"}`; when it raises any other object, it returns the envelope
`{"error": "Unknown exception in pw_X"}` naming the entry point.
`pw_is_wallet_exist` and `pw_get_current_tx_fee` return `false` and `0` on
every engine failure, and pass on what the engine returns otherwise. -/
theorem engine_failures_at_the_boundary {σ : Type} (E : Engine σ) (A : Allocator)
    (w : World σ) (hmem : ∀ n, (A.malloc n).isSome) :
    (∀ (e : StrEntry) (e_what : CBuf),
      (e.engine_op E w.engine).1 = Outcome.std_exception e_what →
      ∃ b, (e.run E A w).1 = CStrResult.buffer b ∧
        cstr_read b = lit "\x7b\"error\": \"" ++ cstr_read e_what ++ lit "\"\x7d") ∧
    (∀ e : StrEntry, (e.engine_op E w.engine).1 = Outcome.other_throw →
      ∃ b, (e.run E A w).1 = CStrResult.buffer b ∧
        cstr_read b
          = lit "\x7b\"error\": \"" ++ (lit "Unknown exception in " ++ lit e.name) ++ lit "\"\x7d") ∧
    (∀ path : CPtr,
      ((∀ r, (E.is_wallet_exist (safe_str path) w.engine).1 ≠ Outcome.returned r) →
        (pw_is_wallet_exist E path w).1 = false) ∧
      (∀ r, (E.is_wallet_exist (safe_str path) w.engine).1 = Outcome.returned r →
        (pw_is_wallet_exist E path w).1 = r)) ∧
    (∀ priority : Nat,
      ((∀ r, (E.get_current_tx_fee priority w.engine).1 ≠ Outcome.returned r) →
        (pw_get_current_tx_fee E priority w).1 = 0) ∧
      (∀ r, (E.get_current_tx_fee priority w.engine).1 = Outcome.returned r →
        (pw_get_current_tx_fee E priority w).1 = r)) := by
  refine ⟨?_, ?_, ?_, ?_⟩
  · intro e e_what h
    refine ⟨c_str (lit "\x7b\"error\": \"" ++ cstr_read e_what ++ lit "\"\x7d"), ?_, ?_⟩
    · rw [run_fst_std_exception E A e w e_what h, dup_str_of_malloc A _ (hmem _)]
    · exact cstr_read_c_str _ (nul_not_mem_envelope _ (nul_not_mem_cstr_read e_what))
  · intro e h
    refine ⟨c_str (lit "\x7b\"error\": \"" ++ (lit "Unknown exception in " ++ lit e.name)
      ++ lit "\"\x7d"), ?_, ?_⟩
    · rw [run_fst_other_throw E A e w h, dup_str_of_malloc A _ (hmem _)]
      rfl
    · refine cstr_read_c_str _ (nul_not_mem_envelope _ ?_)
      intro hmem0
      rcases List.mem_append.mp hmem0 with h1 | h2
      · exact absurd h1 (by decide)
      · exact nul_not_mem_lit_name e h2
  · intro path
    simp only [pw_is_wallet_exist, lock_guard, engine_call]
    constructor
    · intro h
      cases hc : (E.is_wallet_exist (safe_str path) w.engine).1 with
      | returned r => exact absurd hc (h r)
      | std_exception x => rfl
      | other_throw => rfl
    · intro r h
      rw [h]
  · intro priority
    simp only [pw_get_current_tx_fee, lock_guard, engine_call]
    constructor
    · intro h
      cases hc : (E.get_current_tx_fee priority w.engine).1 with
      | returned r => exact absurd hc (h r)
      | std_exception x => rfl
      | other_throw => rfl
    · intro r h
      rw [h]

/-- C1, at an instance: an engine whose every operation raises "disk read
failed", asked through `pw_open`, `pw_is_wallet_exist` and
`pw_get_current_tx_fee`. -/
theorem engine_failures_at_the_boundary_witness :
    (∀ n, (Allocator.ample.malloc n).isSome) ∧
    (∃ b, (pw_open
        (Engine.always (Outcome.std_exception (c_str (lit "disk read failed")))
          (Outcome.std_exception (c_str (lit "disk read failed")))
          (Outcome.std_exception (c_str (lit "disk read failed"))))
        Allocator.ample none none World.start).1 = CStrResult.buffer b ∧
      cstr_read b = lit "\x7b\"error\": \"disk read failed\"\x7d") ∧
    (pw_is_wallet_exist
        (Engine.always (Outcome.std_exception (c_str (lit "disk read failed")))
          (Outcome.std_exception (c_str (lit "disk read failed")))
          (Outcome.std_exception (c_str (lit "disk read failed"))))
        none World.start).1 = false :=
  ⟨fun _ => rfl,
    (engine_failures_at_the_boundary
      (Engine.always (Outcome.std_exception (c_str (lit "disk read failed")))
        (Outcome.std_exception (c_str (lit "disk read failed")))
        (Outcome.std_exception (c_str (lit "disk read failed"))))
      Allocator.ample World.start (fun _ => rfl)).1
      (StrEntry.pw_open none none) (c_str (lit "disk read failed")) rfl,
    ((engine_failures_at_the_boundary
      (Engine.always (Outcome.std_exception (c_str (lit "disk read failed")))
        (Outcome.std_exception (c_str (lit "disk read failed")))
        (Outcome.std_exception (c_str (lit "disk read failed"))))
      Allocator.ample World.start (fun _ => rfl)).2.2.1 none).1
      (fun r h => by cases h)⟩

/-- C1 as stated fails. `pw_is_wallet_exist` and `pw_get_current_tx_fee`
answer an engine failure with `false` and `0`, the very values they return
when the engine answers `false` and `0`, and no message reaches the caller;
and a string-returning entry point returns a null pointer when `malloc`
fails. -/
theorem failure_reported_as_ordinary_value :
    (pw_is_wallet_exist
        (Engine.always Outcome.other_throw
          (Outcome.std_exception (c_str (lit "disk read failed"))) Outcome.other_throw)
        (some (c_str (lit "main.wallet"))) World.start).1 = false ∧
    (pw_is_wallet_exist
        (Engine.always Outcome.other_throw (Outcome.returned false) Outcome.other_throw)
        (some (c_str (lit "main.wallet"))) World.start).1 = false ∧
    (pw_get_current_tx_fee
        (Engine.always Outcome.other_throw Outcome.other_throw
          (Outcome.std_exception (c_str (lit "disk read failed"))))
        2 World.start).1 = 0 ∧
    (pw_get_current_tx_fee
        (Engine.always Outcome.other_throw Outcome.other_throw (Outcome.returned 0))
        2 World.start).1 = 0 ∧
    (pw_open
        (Engine.always (Outcome.std_exception (c_str (lit "disk read failed")))
          Outcome.other_throw Outcome.other_throw)
        Allocator.exhausted none none World.start).1 = CStrResult.null := by
  refine ⟨rfl, rfl, rfl, rfl, rfl⟩

/-- C2 (amended). When the engine call of a string-returning entry point
raises a `std::exception` whose `what()` reads `m` and `malloc` supplies the
result buffer, the entry point returns a NUL-terminated buffer holding exactly
the 11 bytes `{"error": "`, then `m`, then `"}`. -/
theorem std_exception_gives_error_envelope {σ : Type} (E : Engine σ) (A : Allocator)
    (e : StrEntry) (w : World σ) (e_what : CBuf)
    (hraise : (e.engine_op E w.engine).1 = Outcome.std_exception e_what) :
    (lit "\x7b\"error\": \"").length = 11 ∧
    ((A.malloc ((lit "\x7b\"error\": \"" ++ cstr_read e_what ++ lit "\"\x7d").length + 1)).isSome →
      (e.run E A w).1
          = CStrResult.buffer (c_str (lit "\x7b\"error\": \"" ++ cstr_read e_what ++ lit "\"\x7d")) ∧
        cstr_read (c_str (lit "\x7b\"error\": \"" ++ cstr_read e_what ++ lit "\"\x7d"))
          = lit "\x7b\"error\": \"" ++ cstr_read e_what ++ lit "\"\x7d") := by
  refine ⟨by decide, ?_⟩
  intro hm
  rw [run_fst_std_exception E A e w e_what hraise, dup_str_of_malloc A _ hm]
  exact ⟨rfl, cstr_read_c_str _ (nul_not_mem_envelope _ (nul_not_mem_cstr_read e_what))⟩

/-- C2, at an instance: `pw_invoke` on an engine that raises "wallet is locked". -/
theorem std_exception_gives_error_envelope_witness :
    ((StrEntry.pw_invoke 7 none).engine_op
        (Engine.always (Outcome.std_exception (c_str (lit "wallet is locked")))
          Outcome.other_throw Outcome.other_throw) World.start.engine).1
      = Outcome.std_exception (c_str (lit "wallet is locked")) ∧
    (Allocator.ample.malloc
      ((lit "\x7b\"error\": \"" ++ cstr_read (c_str (lit "wallet is locked"))
        ++ lit "\"\x7d").length + 1)).isSome ∧
    ((StrEntry.pw_invoke 7 none).run
        (Engine.always (Outcome.std_exception (c_str (lit "wallet is locked")))
          Outcome.other_throw Outcome.other_throw) Allocator.ample World.start).1
      = CStrResult.buffer (c_str (lit "\x7b\"error\": \"wallet is locked\"\x7d")) :=
  ⟨rfl, rfl,
    ((std_exception_gives_error_envelope
      (Engine.always (Outcome.std_exception (c_str (lit "wallet is locked")))
        Outcome.other_throw Outcome.other_throw)
      Allocator.ample (StrEntry.pw_invoke 7 none) World.start
      (c_str (lit "wallet is locked")) rfl).2 rfl).1⟩

/-- C2 as stated fails when `malloc` refuses the request of `dup_str`: the
envelope for the message `wallet is locked` has 29 bytes, `dup_str` asks for
30, and with that request refused (every other request being served)
`pw_invoke` returns a null pointer, not the envelope. -/
theorem std_exception_envelope_needs_memory :
    ((StrEntry.pw_invoke 7 none).engine_op
        (Engine.always (Outcome.std_exception (c_str (lit "wallet is locked")))
          Outcome.other_throw Outcome.other_throw) World.start.engine).1
      = Outcome.std_exception (c_str (lit "wallet is locked")) ∧
    (lit "\x7b\"error\": \"wallet is locked\"\x7d").length + 1 = 30 ∧
    (Allocator.refusing 30).malloc 30 = none ∧
    (∀ k, k ≠ 30 → ((Allocator.refusing 30).malloc k).isSome = true) ∧
    (pw_invoke (Engine.always (Outcome.std_exception (c_str (lit "wallet is locked")))
        Outcome.other_throw Outcome.other_throw) (Allocator.refusing 30) 7 none
        World.start).1
      = CStrResult.null ∧
    CStrResult.null
      ≠ CStrResult.buffer (c_str (lit "\x7b\"error\": \"wallet is locked\"\x7d")) := by
  refine ⟨rfl, by decide, rfl, ?_, rfl, ?_⟩
  · intro k hk
    simp [Allocator.refusing, hk]
  · intro h
    cases h

/-- C3 (amended). Provided `malloc` supplies the buffers, every call of a
string-returning entry point returns a buffer whatever the engine does
(return, `std::exception`, any other thrown object). When the thrown object
is not a `std::exception` and `malloc` supplies the result buffer, entry point
`pw_X` returns exactly `{"error": "Unknown exception in pw_X"}`;
`pw_is_wallet_exist` returns `false` and `pw_get_current_tx_fee` returns `0`. -/
theorem unknown_exception_is_contained {σ : Type} (E : Engine σ) (A : Allocator)
    (e : StrEntry) (w : World σ) :
    ((∀ n, (A.malloc n).isSome) → ∃ b, (e.run E A w).1 = CStrResult.buffer b) ∧
    ((e.engine_op E w.engine).1 = Outcome.other_throw →
      ((A.malloc ((lit "\x7b\"error\": \"Unknown exception in " ++ lit e.name
          ++ lit "\"\x7d").length + 1)).isSome →
        (e.run E A w).1 = CStrResult.buffer
            (c_str (lit "\x7b\"error\": \"Unknown exception in " ++ lit e.name ++ lit "\"\x7d")) ∧
          cstr_read (c_str (lit "\x7b\"error\": \"Unknown exception in " ++ lit e.name
              ++ lit "\"\x7d"))
            = lit "\x7b\"error\": \"Unknown exception in " ++ lit e.name ++ lit "\"\x7d")) ∧
    (∀ path : CPtr, (E.is_wallet_exist (safe_str path) w.engine).1 = Outcome.other_throw →
      (pw_is_wallet_exist E path w).1 = false) ∧
    (∀ priority : Nat, (E.get_current_tx_fee priority w.engine).1 = Outcome.other_throw →
      (pw_get_current_tx_fee E priority w).1 = 0) := by
  have hnul : (0 : UInt8) ∉
      lit "\x7b\"error\": \"Unknown exception in " ++ lit e.name ++ lit "\"\x7d" := by
    intro hmem
    rcases List.mem_append.mp hmem with h1 | h3
    · rcases List.mem_append.mp h1 with h1 | h2
      · exact absurd h1 (by decide)
      · exact nul_not_mem_lit_name e h2
    · exact nul_not_mem_lit_envelope_close h3
  refine ⟨?_, ?_, ?_, ?_⟩
  · intro hmem
    cases hc : (e.engine_op E w.engine).1 with
    | returned r =>
      exact ⟨_, by rw [run_fst_returned E A e w r hc, dup_str_of_malloc A _ (hmem _)]⟩
    | std_exception x =>
      exact ⟨_, by rw [run_fst_std_exception E A e w x hc, dup_str_of_malloc A _ (hmem _)]⟩
    | other_throw =>
      exact ⟨_, by rw [run_fst_other_throw E A e w hc, dup_str_of_malloc A _ (hmem _)]⟩
  · intro h
    rw [run_fst_other_throw E A e w h]
    intro hm
    rw [dup_str_of_malloc A _ hm]
    exact ⟨rfl, cstr_read_c_str _ hnul⟩
  · intro path h
    simp only [pw_is_wallet_exist, lock_guard, engine_call]
    rw [h]
  · intro priority h
    simp only [pw_get_current_tx_fee, lock_guard, engine_call]
    rw [h]

/-- C3, at an instance: an engine that throws an object that is not a
`std::exception`, asked through `pw_sync_call`, `pw_is_wallet_exist` and
`pw_get_current_tx_fee`. -/
theorem unknown_exception_is_contained_witness :
    ((StrEntry.pw_sync_call none 0 none).engine_op
        (Engine.always Outcome.other_throw Outcome.other_throw Outcome.other_throw)
        World.start.engine).1 = Outcome.other_throw ∧
    ((StrEntry.pw_sync_call none 0 none).run
        (Engine.always Outcome.other_throw Outcome.other_throw Outcome.other_throw)
        Allocator.ample World.start).1
      = CStrResult.buffer (c_str (lit "\x7b\"error\": \"Unknown exception in pw_sync_call\"\x7d")) ∧
    (pw_is_wallet_exist
        (Engine.always Outcome.other_throw Outcome.other_throw Outcome.other_throw)
        none World.start).1 = false ∧
    (pw_get_current_tx_fee
        (Engine.always Outcome.other_throw Outcome.other_throw Outcome.other_throw)
        3 World.start).1 = 0 :=
  ⟨rfl,
    (((unknown_exception_is_contained
      (Engine.always Outcome.other_throw Outcome.other_throw Outcome.other_throw)
      Allocator.ample (StrEntry.pw_sync_call none 0 none) World.start).2.1 rfl) rfl).1,
    (unknown_exception_is_contained
      (Engine.always Outcome.other_throw Outcome.other_throw Outcome.other_throw)
      Allocator.ample (StrEntry.pw_reset) World.start).2.2.1 none rfl,
    (unknown_exception_is_contained
      (Engine.always Outcome.other_throw Outcome.other_throw Outcome.other_throw)
      Allocator.ample (StrEntry.pw_reset) World.start).2.2.2 3 rfl⟩

/-- C3 as stated fails when `malloc` refuses the request of `dup_str`: the
envelope naming `pw_sync_call` has 46 bytes, `dup_str` asks for 47, and with
that request refused (every other request being served) `pw_sync_call`
returns a null pointer after a thrown object that is not a `std::exception`,
not the envelope. -/
theorem unknown_exception_envelope_needs_memory :
    ((StrEntry.pw_sync_call none 0 none).engine_op
        (Engine.always Outcome.other_throw Outcome.other_throw Outcome.other_throw)
        World.start.engine).1 = Outcome.other_throw ∧
    (lit "\x7b\"error\": \"Unknown exception in pw_sync_call\"\x7d").length + 1 = 47 ∧
    (Allocator.refusing 47).malloc 47 = none ∧
    (∀ k, k ≠ 47 → ((Allocator.refusing 47).malloc k).isSome = true) ∧
    (pw_sync_call (Engine.always Outcome.other_throw Outcome.other_throw Outcome.other_throw)
        (Allocator.refusing 47) none 0 none World.start).1 = CStrResult.null ∧
    CStrResult.null
      ≠ CStrResult.buffer (c_str (lit "\x7b\"error\": \"Unknown exception in pw_sync_call\"\x7d")) := by
  refine ⟨rfl, by decide, rfl, ?_, rfl, ?_⟩
  · intro k hk
    simp [Allocator.refusing, hk]
  · intro h
    cases h

/-- C4 (the code departs from it). The message of the exception is copied
between the quotes as it is. With a message that holds a double quote, here
`bad "port" value`, `pw_init` returns `{"error": "bad "port" value"}`, which is
not a JSON text; with the message `rpc_json` raises for an HTTP 503 answer,
which holds a line feed, `pw_invoke` returns an envelope that is not a JSON
text either. For the message `boom` the envelope does read as JSON. -/
theorem error_envelope_is_not_json :
    (pw_init
        (Engine.always (Outcome.std_exception (c_str (lit "bad \"port\" value")))
          Outcome.other_throw Outcome.other_throw)
        Allocator.ample none none 0 World.start).1
      = CStrResult.buffer (c_str (lit "\x7b\"error\": \"bad \"port\" value\"\x7d")) ∧
    json_error_member (lit "\x7b\"error\": \"bad \"port\" value\"\x7d") = none ∧
    (rpc_json
        (Host.answering
          (FetchOutcome.resolved
            { ok := false, status := 503, statusText := "Service Unavailable".data,
              text := Except.ok "try again later".data })
          Allocator.ample)
        (lit "http://127.0.0.1:11211/json_rpc") (lit "\x7b\x7d") TransportState.start).1
      = Except.error (CppException.runtime_error
          (lit "Transport error: HTTP 503: Service Unavailable\ntry again")) ∧
    (pw_invoke
        (Engine.always
          (Outcome.std_exception
            (c_str (lit "Transport error: HTTP 503: Service Unavailable\ntry again")))
          Outcome.other_throw Outcome.other_throw)
        Allocator.ample 1 none World.start).1
      = CStrResult.buffer (c_str
          (lit "\x7b\"error\": \"Transport error: HTTP 503: Service Unavailable\ntry again\"\x7d")) ∧
    json_error_member
        (lit "\x7b\"error\": \"Transport error: HTTP 503: Service Unavailable\ntry again\"\x7d")
      = none ∧
    (pw_init
        (Engine.always (Outcome.std_exception (c_str (lit "boom")))
          Outcome.other_throw Outcome.other_throw)
        Allocator.ample none none 0 World.start).1
      = CStrResult.buffer (c_str (lit "\x7b\"error\": \"boom\"\x7d")) ∧
    json_error_member (lit "\x7b\"error\": \"boom\"\x7d") = some (lit "boom") := by
  refine ⟨rfl, by decide, rfl, rfl, by decide, rfl, by decide⟩

/-- C5 (amended). When the engine call of a string-returning entry point
returns a string `r` with no embedded NUL byte and `malloc` supplies the
result buffer, the entry point returns a non-null buffer that holds `r`
followed by the NUL terminator, and reading that buffer as a C string gives
back `r`; an empty `r` is returned as the one-byte buffer holding the
terminator. When `malloc` fails for a non-empty `r` the entry point returns a
null pointer. -/
theorem engine_result_is_duplicated {σ : Type} (E : Engine σ) (A : Allocator)
    (e : StrEntry) (w : World σ) (r : StdString)
    (hret : (e.engine_op E w.engine).1 = Outcome.returned r) (hnul : (0 : UInt8) ∉ r) :
    ((A.malloc (r.length + 1)).isSome →
      (e.run E A w).1 = CStrResult.buffer (r ++ [0]) ∧
        (∀ b, (e.run E A w).1 = CStrResult.buffer b → cstr_read b = r) ∧
        (r = [] → (e.run E A w).1 = CStrResult.buffer [0])) ∧
    (r ≠ [] → A.malloc (r.length + 1) = none → (e.run E A w).1 = CStrResult.null) := by
  rw [run_fst_returned E A e w r hret]
  constructor
  · intro hm
    rw [dup_str_of_malloc A r hm]
    refine ⟨rfl, ?_, ?_⟩
    · intro b hb
      cases hb
      exact cstr_read_c_str r hnul
    · intro hr
      subst hr
      rfl
  · intro hr hm
    exact dup_str_of_malloc_none A r hr hm

/-- C5, at an instance: `pw_get_version` on an engine that answers `2.1.0`. -/
theorem engine_result_is_duplicated_witness :
    (StrEntry.pw_get_version.engine_op
        (Engine.always (Outcome.returned (lit "2.1.0")) Outcome.other_throw Outcome.other_throw)
        World.start.engine).1 = Outcome.returned (lit "2.1.0") ∧
    (0 : UInt8) ∉ lit "2.1.0" ∧
    (Allocator.ample.malloc ((lit "2.1.0").length + 1)).isSome ∧
    (pw_get_version
        (Engine.always (Outcome.returned (lit "2.1.0")) Outcome.other_throw Outcome.other_throw)
        Allocator.ample World.start).1 = CStrResult.buffer (lit "2.1.0" ++ [0]) :=
  ⟨rfl, by decide, rfl,
    ((engine_result_is_duplicated
      (Engine.always (Outcome.returned (lit "2.1.0")) Outcome.other_throw Outcome.other_throw)
      Allocator.ample StrEntry.pw_get_version World.start (lit "2.1.0") rfl (by decide)).1
      rfl).1⟩

/-- C5 as stated fails when `malloc` fails: `pw_get_version` then returns a
null pointer although the engine returned `2.1.0`. -/
theorem engine_result_needs_memory :
    (StrEntry.pw_get_version.engine_op
        (Engine.always (Outcome.returned (lit "2.1.0")) Outcome.other_throw Outcome.other_throw)
        World.start.engine).1 = Outcome.returned (lit "2.1.0") ∧
    (0 : UInt8) ∉ lit "2.1.0" ∧
    (pw_get_version
        (Engine.always (Outcome.returned (lit "2.1.0")) Outcome.other_throw Outcome.other_throw)
        Allocator.exhausted World.start).1 = CStrResult.null := by
  refine ⟨rfl, by decide, rfl⟩

theorem safe_str_null_or_empty (c : Bool) (p : CPtr) :
    safe_str (if c && p.isNone then some (c_str []) else p) = safe_str p := by
  cases c <;> cases p <;> simp [safe_str, cstr_read, c_str]

/-- C6. A null pointer passed for a string argument reaches the engine as
the empty string: replacing any of the null string arguments of a call by a
pointer to `""` changes neither the engine operation invoked nor the outcome
of the call, for the string-returning entry points and for
`pw_is_wallet_exist`. A non-null argument reaches the engine as the C string
it points to, whatever lies in memory behind its terminator:
`safe_str(nullptr) = ""` and `safe_str(s) = s`. -/
theorem null_argument_is_empty_string {σ : Type} (E : Engine σ) (A : Allocator)
    (e : StrEntry) (w : World σ) (sel : Nat → Bool) :
    (e.mapStrArgs (fun i p => if sel i && p.isNone then some (c_str []) else p)).engine_op E
      = e.engine_op E ∧
    (e.mapStrArgs (fun i p => if sel i && p.isNone then some (c_str []) else p)).run E A w
      = e.run E A w ∧
    pw_is_wallet_exist E none w = pw_is_wallet_exist E (some (c_str [])) w ∧
    safe_str none = [] ∧
    safe_str (some (c_str [])) = [] ∧
    (∀ (s : StdString) (behind : List UInt8), (0 : UInt8) ∉ s →
      safe_str (some (s ++ 0 :: behind)) = s) := by
  refine ⟨?_, ?_, rfl, rfl, rfl, ?_⟩
  · cases e <;> simp only [StrEntry.mapStrArgs, StrEntry.engine_op, safe_str_null_or_empty]
  · cases e <;>
      simp only [StrEntry.mapStrArgs, StrEntry.run, pw_init, pw_init_ip_port, pw_reset,
        pw_set_log_level, pw_get_version, pw_get_wallet_files, pw_delete_wallet,
        pw_get_export_private_info, pw_get_appconfig, pw_set_appconfig, pw_generate_random_key,
        pw_get_logs_buffer, pw_truncate_log, pw_get_connectivity_status, pw_get_address_info,
        pw_generate, pw_restore, pw_open, pw_close_wallet, pw_get_opened_wallets,
        pw_get_wallet_status, pw_get_wallet_info, pw_reset_wallet_password, pw_invoke,
        pw_async_call, pw_try_pull_result, pw_sync_call, safe_str_null_or_empty]
  · intro s behind hs
    exact cstr_read_append_nul s behind hs

/-- C6, at an instance: `pw_restore` with a null path and a null seed
password, on an engine that echoes the four strings it receives. -/
theorem null_argument_is_empty_string_witness :
    (pw_restore Engine.echo Allocator.ample
        (some (c_str (lit "seed words"))) (some (c_str [])) (some (c_str (lit "pw"))) none
        World.start
      = pw_restore Engine.echo Allocator.ample
        (some (c_str (lit "seed words"))) none (some (c_str (lit "pw"))) none World.start) ∧
    (pw_restore Engine.echo Allocator.ample
        (some (c_str (lit "seed words"))) none (some (c_str (lit "pw"))) none World.start).1
      = CStrResult.buffer (c_str (lit "seed words;;pw;;")) ∧
    (0 : UInt8) ∉ lit "seed words" ∧
    safe_str (some (c_str (lit "seed words"))) = lit "seed words" :=
  ⟨(null_argument_is_empty_string Engine.echo Allocator.ample
      (StrEntry.pw_restore (some (c_str (lit "seed words"))) none (some (c_str (lit "pw"))) none)
      World.start (fun i => i == 1)).2.1,
    rfl, by decide,
    (null_argument_is_empty_string Engine.echo Allocator.ample StrEntry.pw_reset
      World.start (fun _ => false)).2.2.2.2.2 (lit "seed words") [] (by decide)⟩

/-! ## Lemmas on the transport -/

theorem find_eq_zero_iff (s pattern : StdString) :
    find s pattern = some 0 ↔ pattern <+: s := by
  cases s with
  | nil =>
    cases pattern with
    | nil => simp [find]
    | cons a t => simp [find]
  | cons c rest =>
    unfold find
    by_cases h : pattern.isPrefixOf (c :: rest) = true
    · simp only [h, if_true, true_iff]
      exact List.isPrefixOf_iff_prefix.mp h
    · simp only [h, Bool.false_eq_true, if_false]
      constructor
      · intro h0
        cases hf : find rest pattern with
        | none => simp [hf] at h0
        | some i => simp [hf] at h0
      · intro hp
        exact absurd (List.isPrefixOf_iff_prefix.mpr hp) h

theorem substr_of_sentinel (result : StdString) (h : lit "ERROR:" <+: result) :
    substr result 6 = Except.ok (result.drop 6) := by
  obtain ⟨t, rfl⟩ := h
  have hlen : (lit "ERROR:").length = 6 := by decide
  unfold substr
  rw [if_neg]
  rw [List.length_append, hlen]
  omega

theorem lengthBytesUTF8_append (a b : JSString) :
    lengthBytesUTF8 (a ++ b) = lengthBytesUTF8 a + lengthBytesUTF8 b := by
  simp [lengthBytesUTF8]

theorem encodeWithin_sentinel (msg : JSString) (room : Nat) (h : 6 ≤ room) :
    encodeWithin ("ERROR:".data ++ msg) room = lit "ERROR:" ++ encodeWithin msg (room - 6) := by
  have e1 : ('E' : Char).utf8Size = 1 := by decide
  have e2 : ('R' : Char).utf8Size = 1 := by decide
  have e3 : ('O' : Char).utf8Size = 1 := by decide
  have e4 : (':' : Char).utf8Size = 1 := by decide
  have h1 : 1 ≤ room := by omega
  have h2 : 1 ≤ room - 1 := by omega
  have h3 : 1 ≤ room - 1 - 1 := by omega
  have h4 : 1 ≤ room - 1 - 1 - 1 := by omega
  have h5 : 1 ≤ room - 1 - 1 - 1 - 1 := by omega
  have h6 : 1 ≤ room - 1 - 1 - 1 - 1 - 1 := by omega
  have hr : room - 1 - 1 - 1 - 1 - 1 - 1 = room - 6 := by omega
  show encodeWithin ('E' :: 'R' :: 'R' :: 'O' :: 'R' :: ':' :: msg) room = _
  simp only [encodeWithin, e1, e2, e3, e4, h1, h2, h3, h4, h5, h6, if_true, hr]
  rfl

theorem cstr_read_sentinel (rest : List UInt8) :
    cstr_read (lit "ERROR:" ++ rest) = lit "ERROR:" ++ cstr_read rest := by
  show cstr_read (69 :: 82 :: 82 :: 79 :: 82 :: 58 :: rest) = _
  simp [cstr_read, List.takeWhile]
  rfl

/-- What `malloc_and_store` hands back for an error text: a null pointer, or a
buffer that opens with the sentinel. -/
theorem malloc_and_store_sentinel (H : Host) (msg : JSString) (h : 6 ≤ lengthBytesUTF8 msg) :
    malloc_and_store H ("ERROR:".data ++ msg) (lengthBytesUTF8 msg + 1) = none ∨
    ∃ rest, malloc_and_store H ("ERROR:".data ++ msg) (lengthBytesUTF8 msg + 1)
      = some (lit "ERROR:" ++ rest) := by
  unfold malloc_and_store
  cases H.heap.malloc (lengthBytesUTF8 msg + 1) with
  | none => exact Or.inl rfl
  | some block =>
    refine Or.inr ?_
    simp only [stringToUTF8, Nat.add_one_ne_zero, if_false, Nat.add_sub_cancel, memcpy,
      List.take_length]
    rw [encodeWithin_sentinel msg _ h]
    exact ⟨_, by simp only [List.append_assoc]; rfl⟩

theorem fetch_http_catch_sentinel (H : Host) (err : JSError) :
    fetch_http_catch H err = none ∨ ∃ rest, fetch_http_catch H err = some (lit "ERROR:" ++ rest) := by
  unfold fetch_http_catch
  apply malloc_and_store_sentinel
  rw [lengthBytesUTF8_append]
  have : lengthBytesUTF8 "Fetch failed: ".data = 14 := by decide
  omega

/-- After a failed fetch the bridge returns a null pointer or a buffer that
opens with the sentinel. -/
theorem fetch_http_failed_sentinel (H : Host) (url body content_type : CBuf)
    (hfail : FetchOutcome.failed (H.fetch (fetch_request H url body content_type)) = true) :
    _fetch_http H url body content_type = none ∨
    ∃ rest, _fetch_http H url body content_type = some (lit "ERROR:" ++ rest) := by
  unfold _fetch_http
  cases hf : H.fetch (fetch_request H url body content_type) with
  | rejected err => exact fetch_http_catch_sentinel H err
  | resolved response =>
    rw [hf] at hfail
    simp only [FetchOutcome.failed] at hfail
    simp only [hfail, if_true]
    cases response.text with
    | error err => exact fetch_http_catch_sentinel H err
    | ok errorText =>
      apply malloc_and_store_sentinel
      have hhttp : lengthBytesUTF8 "HTTP ".data = 5 := by decide
      have hsep : lengthBytesUTF8 ": ".data = 2 := by decide
      rw [lengthBytesUTF8_append, lengthBytesUTF8_append, lengthBytesUTF8_append,
        lengthBytesUTF8_append, lengthBytesUTF8_append, hhttp, hsep]
      omega

/-! ## Properties of the host-bridged transport -/

theorem isEmpty_eq_false_of_ne_nil (url : StdString) (h : url ≠ []) : url.isEmpty = false := by
  cases url with
  | nil => exact absurd rfl h
  | cons a t => rfl

/-- C7. In the host-bridged transport, for a non-empty URL and a non-null
buffer returned by the fetch bridge that reads as the C string `r`: if `r`
begins with `ERROR:`, `rpc_json` and `rpc_binary` raise the runtime error
`Transport error: ` followed by `r` without its first 6 bytes, and that
stripped text is the last error; otherwise they return `r` as it is. -/
theorem bridge_result_is_interpreted (H : Host) (url body : StdString) (st : TransportState)
    (buf : CBuf) (hurl : url ≠ []) :
    (_fetch_http H (c_str url) (c_str body) (c_str (lit "application/json")) = some buf →
      (lit "ERROR:" <+: cstr_read buf →
        (rpc_json H url body st).1
            = Except.error (CppException.runtime_error
                (lit "Transport error: " ++ (cstr_read buf).drop 6)) ∧
          get_last_error (rpc_json H url body st).2 = (cstr_read buf).drop 6) ∧
      (¬ lit "ERROR:" <+: cstr_read buf →
        (rpc_json H url body st).1 = Except.ok (cstr_read buf))) ∧
    (_fetch_http H (c_str url) (c_str body) (c_str (lit "application/octet-stream")) = some buf →
      (lit "ERROR:" <+: cstr_read buf →
        (rpc_binary H url body st).1
            = Except.error (CppException.runtime_error
                (lit "Transport error: " ++ (cstr_read buf).drop 6)) ∧
          get_last_error (rpc_binary H url body st).2 = (cstr_read buf).drop 6) ∧
      (¬ lit "ERROR:" <+: cstr_read buf →
        (rpc_binary H url body st).1 = Except.ok (cstr_read buf))) := by
  have hempty := isEmpty_eq_false_of_ne_nil url hurl
  constructor
  · intro hbridge
    constructor
    · intro hp
      have hfind := (find_eq_zero_iff (cstr_read buf) (lit "ERROR:")).mpr hp
      simp only [rpc_json, hempty, Bool.false_eq_true, if_false, hbridge, hfind, if_true,
        substr_of_sentinel _ hp, get_last_error, and_self]
    · intro hp
      have hfind : ¬ find (cstr_read buf) (lit "ERROR:") = some 0 :=
        fun h => hp ((find_eq_zero_iff _ _).mp h)
      simp only [rpc_json, hempty, Bool.false_eq_true, if_false, hbridge, hfind]
  · intro hbridge
    constructor
    · intro hp
      have hfind := (find_eq_zero_iff (cstr_read buf) (lit "ERROR:")).mpr hp
      simp only [rpc_binary, hempty, Bool.false_eq_true, if_false, hbridge, hfind, if_true,
        substr_of_sentinel _ hp, get_last_error, and_self]
    · intro hp
      have hfind : ¬ find (cstr_read buf) (lit "ERROR:") = some 0 :=
        fun h => hp ((find_eq_zero_iff _ _).mp h)
      simp only [rpc_binary, hempty, Bool.false_eq_true, if_false, hbridge, hfind]

/-- C7, at an instance: a host that answers with the text `ERROR:daemon busy`
makes `rpc_json` raise `Transport error: daemon busy`. -/
theorem bridge_result_is_interpreted_witness :
    lit "http://127.0.0.1:11211/json_rpc" ≠ [] ∧
    _fetch_http
        (Host.answering
          (FetchOutcome.resolved
            { ok := true, status := 200, statusText := "OK".data,
              text := Except.ok "ERROR:daemon busy".data })
          Allocator.ample)
        (c_str (lit "http://127.0.0.1:11211/json_rpc")) (c_str (lit "\x7b\x7d"))
        (c_str (lit "application/json"))
      = some (c_str (lit "ERROR:daemon busy")) ∧
    lit "ERROR:" <+: cstr_read (c_str (lit "ERROR:daemon busy")) ∧
    (rpc_json
        (Host.answering
          (FetchOutcome.resolved
            { ok := true, status := 200, statusText := "OK".data,
              text := Except.ok "ERROR:daemon busy".data })
          Allocator.ample)
        (lit "http://127.0.0.1:11211/json_rpc") (lit "\x7b\x7d") TransportState.start).1
      = Except.error (CppException.runtime_error
          (lit "Transport error: " ++ (cstr_read (c_str (lit "ERROR:daemon busy"))).drop 6)) ∧
    lit "Transport error: " ++ (cstr_read (c_str (lit "ERROR:daemon busy"))).drop 6
      = lit "Transport error: daemon busy" :=
  ⟨by decide, by decide, ⟨lit "daemon busy", by decide⟩,
    (((bridge_result_is_interpreted
      (Host.answering
        (FetchOutcome.resolved
          { ok := true, status := 200, statusText := "OK".data,
            text := Except.ok "ERROR:daemon busy".data })
        Allocator.ample)
      (lit "http://127.0.0.1:11211/json_rpc") (lit "\x7b\x7d") TransportState.start
      (c_str (lit "ERROR:daemon busy")) (by decide)).1 (by decide)).1
      ⟨lit "daemon busy", by decide⟩).1,
    by decide⟩

theorem rpc_json_of_sentinel (H : Host) (url body : StdString) (st : TransportState)
    (h : _fetch_http H (c_str url) (c_str body) (c_str (lit "application/json")) = none ∨
      ∃ rest, _fetch_http H (c_str url) (c_str body) (c_str (lit "application/json"))
        = some (lit "ERROR:" ++ rest)) :
    ∃ msg, (rpc_json H url body st).1
        = Except.error (CppException.runtime_error (lit "Transport error: " ++ msg)) ∧
      get_last_error (rpc_json H url body st).2 = msg := by
  by_cases hurl : url = []
  · subst hurl
    exact ⟨lit "URL cannot be empty", rfl, rfl⟩
  have hempty := isEmpty_eq_false_of_ne_nil url hurl
  rcases h with h | ⟨rest, h⟩
  · refine ⟨lit "Fetch returned null pointer", ?_⟩
    simp only [rpc_json, hempty, Bool.false_eq_true, if_false, h, get_last_error, and_self]
  · have hp : lit "ERROR:" <+: cstr_read (lit "ERROR:" ++ rest) := by
      rw [cstr_read_sentinel]
      exact List.prefix_append _ _
    have hfind := (find_eq_zero_iff _ _).mpr hp
    refine ⟨(cstr_read (lit "ERROR:" ++ rest)).drop 6, ?_⟩
    simp only [rpc_json, hempty, Bool.false_eq_true, if_false, h, hfind, if_true,
      substr_of_sentinel _ hp, get_last_error, and_self]

theorem rpc_binary_of_sentinel (H : Host) (url body : StdString) (st : TransportState)
    (h : _fetch_http H (c_str url) (c_str body) (c_str (lit "application/octet-stream")) = none ∨
      ∃ rest, _fetch_http H (c_str url) (c_str body) (c_str (lit "application/octet-stream"))
        = some (lit "ERROR:" ++ rest)) :
    ∃ msg, (rpc_binary H url body st).1
        = Except.error (CppException.runtime_error (lit "Transport error: " ++ msg)) ∧
      get_last_error (rpc_binary H url body st).2 = msg := by
  by_cases hurl : url = []
  · subst hurl
    exact ⟨lit "URL cannot be empty", rfl, rfl⟩
  have hempty := isEmpty_eq_false_of_ne_nil url hurl
  rcases h with h | ⟨rest, h⟩
  · refine ⟨lit "Fetch returned null pointer", ?_⟩
    simp only [rpc_binary, hempty, Bool.false_eq_true, if_false, h, get_last_error, and_self]
  · have hp : lit "ERROR:" <+: cstr_read (lit "ERROR:" ++ rest) := by
      rw [cstr_read_sentinel]
      exact List.prefix_append _ _
    have hfind := (find_eq_zero_iff _ _).mpr hp
    refine ⟨(cstr_read (lit "ERROR:" ++ rest)).drop 6, ?_⟩
    simp only [rpc_binary, hempty, Bool.false_eq_true, if_false, h, hfind, if_true,
      substr_of_sentinel _ hp, get_last_error, and_self]

/-- C8. In the host-bridged transport, when the fetch ends in a response
whose `ok` is false (whatever its status code, status text and body) or in a
thrown error, every buffer `_fetch_http` returns begins with `ERROR:`, and
`rpc_json` and `rpc_binary` raise a runtime error `Transport error: ...`
instead of returning a value. -/
theorem failed_fetch_is_a_transport_error (H : Host) (url body : StdString)
    (st : TransportState) :
    (FetchOutcome.failed (H.fetch
        (fetch_request H (c_str url) (c_str body) (c_str (lit "application/json")))) = true →
      (∀ buf, _fetch_http H (c_str url) (c_str body) (c_str (lit "application/json")) = some buf →
        lit "ERROR:" <+: buf) ∧
      ∃ msg, (rpc_json H url body st).1
          = Except.error (CppException.runtime_error (lit "Transport error: " ++ msg)) ∧
        get_last_error (rpc_json H url body st).2 = msg) ∧
    (FetchOutcome.failed (H.fetch
        (fetch_request H (c_str url) (c_str body) (c_str (lit "application/octet-stream"))))
        = true →
      (∀ buf, _fetch_http H (c_str url) (c_str body) (c_str (lit "application/octet-stream"))
          = some buf →
        lit "ERROR:" <+: buf) ∧
      ∃ msg, (rpc_binary H url body st).1
          = Except.error (CppException.runtime_error (lit "Transport error: " ++ msg)) ∧
        get_last_error (rpc_binary H url body st).2 = msg) := by
  constructor
  · intro hfail
    have hs := fetch_http_failed_sentinel H _ _ _ hfail
    refine ⟨?_, rpc_json_of_sentinel H url body st hs⟩
    intro buf hbuf
    rcases hs with hs | ⟨rest, hs⟩
    · rw [hs] at hbuf
      cases hbuf
    · rw [hs] at hbuf
      cases hbuf
      exact List.prefix_append _ _
  · intro hfail
    have hs := fetch_http_failed_sentinel H _ _ _ hfail
    refine ⟨?_, rpc_binary_of_sentinel H url body st hs⟩
    intro buf hbuf
    rcases hs with hs | ⟨rest, hs⟩
    · rw [hs] at hbuf
      cases hbuf
    · rw [hs] at hbuf
      cases hbuf
      exact List.prefix_append _ _

/-- C8, at an instance: a 404 answer and a rejected fetch. -/
theorem failed_fetch_is_a_transport_error_witness :
    FetchOutcome.failed
        (FetchOutcome.resolved
          { ok := false, status := 404, statusText := "Not Found".data,
            text := Except.ok "no such route".data }) = true ∧
    (∃ msg, (rpc_json
        (Host.answering
          (FetchOutcome.resolved
            { ok := false, status := 404, statusText := "Not Found".data,
              text := Except.ok "no such route".data })
          Allocator.ample)
        (lit "http://127.0.0.1:11211/json_rpc") (lit "\x7b\x7d") TransportState.start).1
      = Except.error (CppException.runtime_error (lit "Transport error: " ++ msg)) ∧
      get_last_error (rpc_json
        (Host.answering
          (FetchOutcome.resolved
            { ok := false, status := 404, statusText := "Not Found".data,
              text := Except.ok "no such route".data })
          Allocator.ample)
        (lit "http://127.0.0.1:11211/json_rpc") (lit "\x7b\x7d") TransportState.start).2 = msg) ∧
    (∃ msg, (rpc_binary
        (Host.answering
          (FetchOutcome.rejected { message := some "Failed to fetch".data, toStr := [] })
          Allocator.ample)
        (lit "http://127.0.0.1:11211/json_rpc") [1, 2, 3] TransportState.start).1
      = Except.error (CppException.runtime_error (lit "Transport error: " ++ msg)) ∧
      get_last_error (rpc_binary
        (Host.answering
          (FetchOutcome.rejected { message := some "Failed to fetch".data, toStr := [] })
          Allocator.ample)
        (lit "http://127.0.0.1:11211/json_rpc") [1, 2, 3] TransportState.start).2 = msg) :=
  ⟨rfl,
    ((failed_fetch_is_a_transport_error
      (Host.answering
        (FetchOutcome.resolved
          { ok := false, status := 404, statusText := "Not Found".data,
            text := Except.ok "no such route".data })
        Allocator.ample)
      (lit "http://127.0.0.1:11211/json_rpc") (lit "\x7b\x7d") TransportState.start).1
      rfl).2,
    ((failed_fetch_is_a_transport_error
      (Host.answering
        (FetchOutcome.rejected { message := some "Failed to fetch".data, toStr := [] })
        Allocator.ample)
      (lit "http://127.0.0.1:11211/json_rpc") [1, 2, 3] TransportState.start).2
      rfl).2⟩

/-- C9. In the host-bridged transport, `rpc_json` and `rpc_binary` called
with an empty URL raise the runtime error
`Transport error: URL cannot be empty` for every body, leave
`URL cannot be empty` as the last error, and make no call of the fetch
bridge: the record of bridge calls is unchanged and the host plays no part in
the result. -/
theorem empty_url_is_refused (H : Host) (body : StdString) (st : TransportState) :
    (rpc_json H [] body st).1
      = Except.error (CppException.runtime_error (lit "Transport error: URL cannot be empty")) ∧
    get_last_error (rpc_json H [] body st).2 = lit "URL cannot be empty" ∧
    (rpc_json H [] body st).2.bridge_calls = st.bridge_calls ∧
    (rpc_binary H [] body st).1
      = Except.error (CppException.runtime_error (lit "Transport error: URL cannot be empty")) ∧
    get_last_error (rpc_binary H [] body st).2 = lit "URL cannot be empty" ∧
    (rpc_binary H [] body st).2.bridge_calls = st.bridge_calls ∧
    (∀ H2 : Host, rpc_json H2 [] body st = rpc_json H [] body st ∧
      rpc_binary H2 [] body st = rpc_binary H [] body st) := by
  refine ⟨rfl, rfl, rfl, rfl, rfl, rfl, fun _ => ⟨rfl, rfl⟩⟩

/-- C10 (the code departs from it). The binary body travels to the bridge as
a C string. For the body `41 00 42` the request handed to `fetch` carries the
decoding of the single byte `41`, on every host, and the whole call cannot be
told from the call with the body `41`; and a response whose text is
`A`, U+0000, `B` comes back from `rpc_binary` as the single byte `41`. -/
theorem binary_body_is_cut_at_nul :
    (∀ H : Host,
      (fetch_request H (c_str (lit "http://127.0.0.1:11211/getblocks.bin"))
          (c_str [0x41, 0x00, 0x42]) (c_str (lit "application/octet-stream"))).body
        = H.UTF8Decode [0x41]) ∧
    (∀ (H : Host) (st : TransportState),
      (rpc_binary H (lit "http://127.0.0.1:11211/getblocks.bin") [0x41, 0x00, 0x42] st).1
        = (rpc_binary H (lit "http://127.0.0.1:11211/getblocks.bin") [0x41] st).1) ∧
    stringToUTF8 ("A".data ++ [Char.ofNat 0] ++ "B".data) 4 = [0x41, 0x00, 0x42, 0x00] ∧
    (rpc_binary
        (Host.answering
          (FetchOutcome.resolved
            { ok := true, status := 200, statusText := "OK".data,
              text := Except.ok ("A".data ++ [Char.ofNat 0] ++ "B".data) })
          Allocator.ample)
        (lit "http://127.0.0.1:11211/getblocks.bin") [0x41, 0x00, 0x42]
        TransportState.start).1
      = Except.ok [0x41] := by
  refine ⟨fun H => rfl, ?_, by decide, rfl⟩
  intro H st
  have hreq : fetch_request H (c_str (lit "http://127.0.0.1:11211/getblocks.bin"))
        (c_str [0x41, 0x00, 0x42]) (c_str (lit "application/octet-stream"))
      = fetch_request H (c_str (lit "http://127.0.0.1:11211/getblocks.bin"))
        (c_str [0x41]) (c_str (lit "application/octet-stream")) := rfl
  have hbridge : _fetch_http H (c_str (lit "http://127.0.0.1:11211/getblocks.bin"))
        (c_str [0x41, 0x00, 0x42]) (c_str (lit "application/octet-stream"))
      = _fetch_http H (c_str (lit "http://127.0.0.1:11211/getblocks.bin"))
        (c_str [0x41]) (c_str (lit "application/octet-stream")) := by
    unfold _fetch_http
    rw [hreq]
  have hne : (lit "http://127.0.0.1:11211/getblocks.bin").isEmpty = false := by decide
  simp only [rpc_binary, hne, Bool.false_eq_true, if_false, hbridge]
  cases _fetch_http H (c_str (lit "http://127.0.0.1:11211/getblocks.bin"))
      (c_str [0x41]) (c_str (lit "application/octet-stream")) with
  | none => rfl
  | some p =>
    simp only
    split
    · split <;> rfl
    · rfl

/-! ## Properties of the native transport -/

/-- C11. In the native transport, `rpc_json` and `rpc_binary` raise, for every
URL and every body, the runtime error
`Native transport not implemented - use plain_wallet native HTTP client`;
`get_last_error()` afterwards returns that same message, and `is_ready()`
returns false. -/
theorem native_transport_is_a_placeholder (url body : StdString) (st : NativeState) :
    (Native.rpc_json url body st).1
      = Except.error (CppException.runtime_error
          (lit "Native transport not implemented - use plain_wallet native HTTP client")) ∧
    Native.get_last_error (Native.rpc_json url body st).2
      = lit "Native transport not implemented - use plain_wallet native HTTP client" ∧
    (Native.rpc_binary url body st).1
      = Except.error (CppException.runtime_error
          (lit "Native transport not implemented - use plain_wallet native HTTP client")) ∧
    Native.get_last_error (Native.rpc_binary url body st).2
      = lit "Native transport not implemented - use plain_wallet native HTTP client" ∧
    Native.is_ready = false :=
  ⟨rfl, rfl, rfl, rfl, rfl⟩

/-! ## Lemmas on the mutex -/

theorem run_trace {σ : Type} (E : Engine σ) (A : Allocator) (e : StrEntry) (w : World σ) :
    (e.run E A w).2.trace
      = w.trace ++ [Event.lock, Event.engine_enter, Event.engine_exit, Event.unlock] := by
  cases e <;>
    simp only [StrEntry.run, pw_init, pw_init_ip_port, pw_reset,
      pw_set_log_level, pw_get_version, pw_get_wallet_files, pw_delete_wallet,
      pw_get_export_private_info, pw_get_appconfig, pw_set_appconfig, pw_generate_random_key,
      pw_get_logs_buffer, pw_truncate_log, pw_get_connectivity_status, pw_get_address_info,
      pw_generate, pw_restore, pw_open, pw_close_wallet, pw_get_opened_wallets,
      pw_get_wallet_status, pw_get_wallet_info, pw_reset_wallet_password, pw_invoke,
      pw_async_call, pw_try_pull_result, pw_sync_call, lock_guard, engine_call] <;>
    split <;> rename_i heq <;> simp only [Prod.mk.injEq] at heq <;> obtain ⟨_, rfl⟩ := heq <;> simp

theorem is_wallet_exist_trace {σ : Type} (E : Engine σ) (path : CPtr) (w : World σ) :
    (pw_is_wallet_exist E path w).2.trace
      = w.trace ++ [Event.lock, Event.engine_enter, Event.engine_exit, Event.unlock] := by
  simp only [pw_is_wallet_exist, lock_guard, engine_call]
  split <;> rename_i heq <;> simp only [Prod.mk.injEq] at heq <;> obtain ⟨_, rfl⟩ := heq <;> simp

theorem get_current_tx_fee_trace {σ : Type} (E : Engine σ) (priority : Nat) (w : World σ) :
    (pw_get_current_tx_fee E priority w).2.trace
      = w.trace ++ [Event.lock, Event.engine_enter, Event.engine_exit, Event.unlock] := by
  simp only [pw_get_current_tx_fee, lock_guard, engine_call]
  split <;> rename_i heq <;> simp only [Prod.mk.injEq] at heq <;> obtain ⟨_, rfl⟩ := heq <;> simp

theorem lock_discipline_inside (holds : Bool) (todo : List Event)
    (h : lock_discipline holds true todo = true) : holds = true := by
  cases holds with
  | true => rfl
  | false =>
    cases todo with
    | nil => simp [lock_discipline] at h
    | cons ev rest => cases ev <;> simp [lock_discipline] at h

theorem lock_discipline_calls (n : Nat) :
    lock_discipline false false
      (List.replicate n
        [Event.lock, Event.engine_enter, Event.engine_exit, Event.unlock]).flatten = true := by
  induction n with
  | zero => rfl
  | succ k ih =>
    simp only [List.replicate_succ, List.flatten_cons, List.cons_append, List.nil_append,
      lock_discipline]
    exact ih

theorem start_disciplined (calls : Nat → Nat) : (Threads.start calls).disciplined := by
  intro i
  simp only [Threads.start]
  exact lock_discipline_calls (calls i)

theorem step_disciplined (s s2 : Threads) (t : Nat) (hinv : s.disciplined)
    (hstep : s.step t = some s2) : s2.disciplined := by
  have ht := hinv t
  unfold Threads.step at hstep
  cases htodo : s.todo t with
  | nil => simp [htodo] at hstep
  | cons ev rest =>
    rw [htodo] at ht
    cases ev with
    | lock =>
      simp only [htodo] at hstep
      by_cases ho : s.owner = none
      · simp only [ho, if_true, Option.some.injEq] at hstep
        subst hstep
        intro i
        by_cases hi : i = t
        · subst hi
          simp only [Function.update_same, decide_True]
          rw [ho] at ht
          cases hin : s.in_engine i with
          | true => rw [hin] at ht; simp [lock_discipline] at ht
          | false => rw [hin] at ht; simpa [lock_discipline] using ht
        · have hne : ¬ (some t = some i) := fun h => hi (Option.some.inj h).symm
          have := hinv i
          rw [ho] at this
          simpa [Function.update_noteq hi, hne] using this
      · simp [ho] at hstep
    | unlock =>
      simp only [htodo] at hstep
      by_cases ho : s.owner = some t
      · simp only [ho, if_true, Option.some.injEq] at hstep
        subst hstep
        intro i
        by_cases hi : i = t
        · subst hi
          simp only [Function.update_same]
          rw [ho] at ht
          cases hin : s.in_engine i with
          | true => rw [hin] at ht; simp [lock_discipline] at ht
          | false => rw [hin] at ht; simpa [lock_discipline] using ht
        · have hne : ¬ (some t = some i) := fun h => hi (Option.some.inj h).symm
          have := hinv i
          rw [ho] at this
          simpa [Function.update_noteq hi, hne] using this
      · simp [ho] at hstep
    | engine_enter =>
      simp only [htodo, Option.some.injEq] at hstep
      subst hstep
      intro i
      by_cases hi : i = t
      · subst hi
        simp only [Function.update_same]
        cases hown : decide (s.owner = some i) with
        | false => rw [hown] at ht; cases hin : s.in_engine i <;> rw [hin] at ht <;>
            simp [lock_discipline] at ht
        | true =>
          rw [hown] at ht
          cases hin : s.in_engine i with
          | true => rw [hin] at ht; simp [lock_discipline] at ht
          | false => rw [hin] at ht; simpa [lock_discipline] using ht
      · have := hinv i
        simpa [Function.update_noteq hi] using this
    | engine_exit =>
      simp only [htodo, Option.some.injEq] at hstep
      subst hstep
      intro i
      by_cases hi : i = t
      · subst hi
        simp only [Function.update_same]
        cases hown : decide (s.owner = some i) with
        | false => rw [hown] at ht; cases hin : s.in_engine i <;> rw [hin] at ht <;>
            simp [lock_discipline] at ht
        | true =>
          rw [hown] at ht
          cases hin : s.in_engine i with
          | false => rw [hin] at ht; simp [lock_discipline] at ht
          | true => rw [hin] at ht; simpa [lock_discipline] using ht
      · have := hinv i
        simpa [Function.update_noteq hi] using this

theorem run_disciplined (schedule : List Nat) (s s2 : Threads) (hinv : s.disciplined)
    (hrun : s.run schedule = some s2) : s2.disciplined := by
  induction schedule generalizing s with
  | nil =>
    simp only [Threads.run, Option.some.injEq] at hrun
    subst hrun
    exact hinv
  | cons t rest ih =>
    simp only [Threads.run] at hrun
    cases hstep : s.step t with
    | none => simp [hstep] at hrun
    | some s1 =>
      rw [hstep] at hrun
      exact ih s1 (step_disciplined s s1 t hinv hstep) hrun

theorem disciplined_exclusive (s : Threads) (hinv : s.disciplined) (i j : Nat)
    (hi : s.in_engine i = true) (hj : s.in_engine j = true) : i = j := by
  have h1 := hinv i
  have h2 := hinv j
  rw [hi] at h1
  rw [hj] at h2
  have o1 := lock_discipline_inside _ _ h1
  have o2 := lock_discipline_inside _ _ h2
  simp only [decide_eq_true_eq] at o1 o2
  rw [o1] at o2
  exact Option.some.inj o2

/-! ## Properties of the mutex at the boundary -/

/-- C12. Every boundary entry point that calls the engine (the 27
string-returning ones, `pw_is_wallet_exist` and `pw_get_current_tx_fee`) takes
`g_api_mutex` before it enters the engine and has released it when it
returns, whatever the engine does (the engine is arbitrary: it may return,
raise a `std::exception` or raise anything else): the steps of a call are
`lock`, `engine_enter`, `engine_exit`, `unlock`, in this order. Hence, for
threads that make boundary calls side by side under the rules of
`std::mutex`, no two threads are inside the engine at the same time, in any
schedule. -/
theorem engine_calls_are_serialized {σ : Type} (E : Engine σ) (A : Allocator) (w : World σ) :
    (∀ e : StrEntry, (e.run E A w).2.trace
      = w.trace ++ [Event.lock, Event.engine_enter, Event.engine_exit, Event.unlock]) ∧
    (∀ path : CPtr, (pw_is_wallet_exist E path w).2.trace
      = w.trace ++ [Event.lock, Event.engine_enter, Event.engine_exit, Event.unlock]) ∧
    (∀ priority : Nat, (pw_get_current_tx_fee E priority w).2.trace
      = w.trace ++ [Event.lock, Event.engine_enter, Event.engine_exit, Event.unlock]) ∧
    (∀ held : Bool,
      mutex_after held [Event.lock, Event.engine_enter, Event.engine_exit, Event.unlock]
        = false) ∧
    (∀ (calls : Nat → Nat) (schedule : List Nat) (s : Threads),
      (Threads.start calls).run schedule = some s →
      ∀ i j, s.in_engine i = true → s.in_engine j = true → i = j) := by
  refine ⟨fun e => run_trace E A e w, fun path => is_wallet_exist_trace E path w,
    fun priority => get_current_tx_fee_trace E priority w, ?_, ?_⟩
  · intro held
    cases held <;> rfl
  · intro calls schedule s hrun i j hi hj
    exact disciplined_exclusive s
      (run_disciplined schedule _ s (start_disciplined calls) hrun) i j hi hj

/-- C12, at an instance: `pw_open` on an engine that raises an exception, and
two threads with one call each: the schedule in which thread 0 finishes its
call before thread 1 begins goes through, and thread 1 cannot take the mutex
while thread 0 is inside the engine. -/
theorem engine_calls_are_serialized_witness :
    (pw_open
        (Engine.always (Outcome.std_exception (c_str (lit "no such file")))
          Outcome.other_throw Outcome.other_throw)
        Allocator.ample none none World.start).2.trace
      = [Event.lock, Event.engine_enter, Event.engine_exit, Event.unlock] ∧
    ((Threads.start (fun _ => 1)).run [0, 0, 0, 0, 1, 1]).isSome = true ∧
    (∀ s, (Threads.start (fun _ => 1)).run [0, 0, 0, 0, 1, 1] = some s →
      ∀ i j, s.in_engine i = true → s.in_engine j = true → i = j) ∧
    ((Threads.start (fun _ => 1)).run [0, 0, 1]).isSome = false :=
  ⟨(engine_calls_are_serialized
      (Engine.always (Outcome.std_exception (c_str (lit "no such file")))
        Outcome.other_throw Outcome.other_throw)
      Allocator.ample World.start).1 (StrEntry.pw_open none none),
    rfl,
    fun s hs =>
      (engine_calls_are_serialized
        (Engine.always (Outcome.std_exception (c_str (lit "no such file")))
          Outcome.other_throw Outcome.other_throw)
        Allocator.ample World.start).2.2.2.2 (fun _ => 1) [0, 0, 0, 0, 1, 1] s hs,
    rfl⟩

/-- C13 (amended). A boundary call, synchronous ones such as `pw_sync_call`,
`pw_invoke` and `pw_open` included, holds `g_api_mutex` for the whole of the
underlying engine operation: the mutex is held when the engine is entered and
still held when the engine is left, whatever its state before the call. -/
theorem mutex_is_held_across_the_engine_call {σ : Type} (E : Engine σ) (A : Allocator)
    (w : World σ) (held : Bool) :
    (∀ e : StrEntry, ∃ steps, (e.run E A w).2.trace = w.trace ++ steps ∧
      mutex_at_engine_steps held steps = [true, true]) ∧
    (∀ path : CPtr, ∃ steps, (pw_is_wallet_exist E path w).2.trace = w.trace ++ steps ∧
      mutex_at_engine_steps held steps = [true, true]) ∧
    (∀ priority : Nat, ∃ steps, (pw_get_current_tx_fee E priority w).2.trace = w.trace ++ steps ∧
      mutex_at_engine_steps held steps = [true, true]) :=
  ⟨fun e => ⟨_, run_trace E A e w, rfl⟩,
    fun path => ⟨_, is_wallet_exist_trace E path w, rfl⟩,
    fun priority => ⟨_, get_current_tx_fee_trace E priority w, rfl⟩⟩

/-- C13 as stated fails: in `pw_sync_call`, `pw_invoke` and `pw_open` the
mutex is held at both engine steps of the call. -/
theorem engine_runs_inside_the_lock :
    mutex_at_engine_steps false
        (pw_sync_call Engine.echo Allocator.ample (some (c_str (lit "invoke"))) 1
          (some (c_str (lit "\x7b\x7d"))) World.start).2.trace = [true, true] ∧
    mutex_at_engine_steps false
        (pw_invoke Engine.echo Allocator.ample 1 (some (c_str (lit "\x7b\x7d")))
          World.start).2.trace = [true, true] ∧
    mutex_at_engine_steps false
        (pw_open Engine.echo Allocator.ample (some (c_str (lit "main.wallet")))
          (some (c_str (lit "pw"))) World.start).2.trace = [true, true] ∧
    (pw_sync_call Engine.echo Allocator.ample (some (c_str (lit "invoke"))) 1
        (some (c_str (lit "\x7b\x7d"))) World.start).2.trace
      = [Event.lock, Event.engine_enter, Event.engine_exit, Event.unlock] := by
  refine ⟨rfl, rfl, rfl, rfl⟩

/-! ## Lemmas on the job queue -/

theorem start_oldest_ids (l : List Job) : (start_oldest l).map Job.id = l.map Job.id := by
  induction l with
  | nil => rfl
  | cons job rest ih =>
    unfold start_oldest
    split
    · rfl
    · simp only [List.map_cons, ih]

theorem finish_job_ids (id : Nat) (outcome : Envelope) (l : List Job) :
    (finish_job id outcome l).map Job.id = l.map Job.id := by
  induction l with
  | nil => rfl
  | cons job rest ih =>
    unfold finish_job
    split
    · cases outcome <;> rfl
    · simp only [List.map_cons, ih]

theorem ids_of_same_map (l1 l2 : List Job) (h : l1.map Job.id = l2.map Job.id) (n : Nat) :
    (∀ job ∈ l1, job.id < n) ↔ (∀ job ∈ l2, job.id < n) := by
  have key : ∀ l : List Job, (∀ job ∈ l, job.id < n) ↔ ∀ i ∈ l.map Job.id, i < n := by
    intro l
    simp
  rw [key l1, key l2, h]

theorem ne_of_same_map (l1 l2 : List Job) (h : l1.map Job.id = l2.map Job.id) (j : Nat) :
    (∀ job ∈ l1, job.id ≠ j) ↔ (∀ job ∈ l2, job.id ≠ j) := by
  have key : ∀ l : List Job, (∀ job ∈ l, job.id ≠ j) ↔ ∀ i ∈ l.map Job.id, i ≠ j := by
    intro l
    simp
  rw [key l1, key l2, h]

theorem eraseP_id_gone (j : Nat) (l : List Job) (h : (l.map Job.id).Nodup) :
    ∀ job ∈ l.eraseP (fun job => job.id == j), job.id ≠ j := by
  induction l with
  | nil => simp
  | cons x xs ih =>
    simp only [List.map_cons, List.nodup_cons] at h
    by_cases hx : x.id = j
    · have hp : (x.id == j) = true := by simp [hx]
      rw [List.eraseP_cons]
      simp only [hp, cond_true]
      intro job hjob hid
      apply h.1
      rw [hx, ← hid]
      exact List.mem_map_of_mem Job.id hjob
    · have hp : (x.id == j) = false := by simp [hx]
      rw [List.eraseP_cons]
      simp only [hp, cond_false]
      intro job hjob
      rcases List.mem_cons.mp hjob with rfl | hmem
      · exact hx
      · exact ih h.2 job hmem

theorem eraseP_ids_nodup (p : Job → Bool) (l : List Job) (h : (l.map Job.id).Nodup) :
    ((l.eraseP p).map Job.id).Nodup :=
  List.Nodup.sublist (List.Sublist.map Job.id (List.eraseP_sublist l)) h

theorem poll_jobs_subset (q : JobQueue) (id : Nat) :
    ∀ job ∈ (q.poll id).2.jobs, job ∈ q.jobs := by
  intro job
  unfold JobQueue.poll
  split
  · exact fun h => h
  · split
    · exact fun h => h
    · exact fun h => h
    · exact fun h => List.mem_of_mem_eraseP h
    · exact fun h => List.mem_of_mem_eraseP h

theorem poll_next_id (q : JobQueue) (id : Nat) : (q.poll id).2.next_id = q.next_id := by
  unfold JobQueue.poll
  split
  · rfl
  · split <;> rfl

theorem poll_well_formed (q : JobQueue) (id : Nat) (h : q.well_formed) :
    (q.poll id).2.well_formed := by
  constructor
  · intro job hjob
    rw [poll_next_id]
    exact h.1 job (poll_jobs_subset q id job hjob)
  · unfold JobQueue.poll
    split
    · exact h.2
    · split
      · exact h.2
      · exact h.2
      · exact eraseP_ids_nodup _ _ h.2
      · exact eraseP_ids_nodup _ _ h.2

theorem enqueue_well_formed (q : JobQueue) (method : StdString) (wallet : Int)
    (params : StdString) (h : q.well_formed) : (q.enqueue method wallet params).2.well_formed := by
  unfold JobQueue.enqueue
  split
  · constructor
    · intro job hjob
      simp only [List.mem_append, List.mem_singleton] at hjob
      rcases hjob with hjob | rfl
      · exact Nat.lt_succ_of_lt (h.1 job hjob)
      · exact Nat.lt_succ_self _
    · simp only [List.map_append, List.map_cons, List.map_nil]
      rw [List.nodup_append]
      refine ⟨h.2, List.nodup_singleton _, ?_⟩
      intro i hi hi2
      simp only [List.mem_singleton] at hi2
      obtain ⟨job, hjob, rfl⟩ := List.mem_map.mp hi
      have := h.1 job hjob
      omega
  · exact h

theorem apply_well_formed (q : JobQueue) (op : QueueOp) (h : q.well_formed) :
    (q.apply op).well_formed := by
  cases op with
  | enqueue method wallet params => exact enqueue_well_formed q method wallet params h
  | worker_start =>
    refine ⟨?_, ?_⟩
    · exact (ids_of_same_map _ _ (start_oldest_ids q.jobs) q.next_id).mpr h.1
    · show ((start_oldest q.jobs).map Job.id).Nodup
      rw [start_oldest_ids]
      exact h.2
  | worker_finish id outcome =>
    refine ⟨?_, ?_⟩
    · exact (ids_of_same_map _ _ (finish_job_ids id outcome q.jobs) q.next_id).mpr h.1
    · show ((finish_job id outcome q.jobs).map Job.id).Nodup
      rw [finish_job_ids]
      exact h.2
  | poll id => exact poll_well_formed q id h

theorem apply_consumed (q : JobQueue) (op : QueueOp) (j : Nat) (h : q.consumed j) :
    (q.apply op).consumed j := by
  cases op with
  | enqueue method wallet params =>
    simp only [JobQueue.apply, JobQueue.enqueue]
    split
    · refine ⟨Nat.lt_succ_of_lt h.1, ?_⟩
      intro job hjob
      simp only [List.mem_append, List.mem_singleton] at hjob
      rcases hjob with hjob | rfl
      · exact h.2 job hjob
      · exact Nat.ne_of_gt h.1
    · exact h
  | worker_start =>
    exact ⟨h.1, (ne_of_same_map _ _ (start_oldest_ids q.jobs) j).mpr h.2⟩
  | worker_finish id outcome =>
    exact ⟨h.1, (ne_of_same_map _ _ (finish_job_ids id outcome q.jobs) j).mpr h.2⟩
  | poll id =>
    refine ⟨?_, ?_⟩
    · show j < (q.poll id).2.next_id
      rw [poll_next_id]
      exact h.1
    · intro job hjob
      exact h.2 job (poll_jobs_subset q id job hjob)

theorem poll_of_consumed (q : JobQueue) (j : Nat) (h : q.consumed j) :
    (q.poll j).1 = PollResult.not_found := by
  have hnone : q.jobs.find? (fun job => job.id == j) = none := by
    rw [List.find?_eq_none]
    intro job hjob
    simp [h.2 job hjob]
  unfold JobQueue.poll
  rw [hnone]

theorem consumed_of_terminal (q : JobQueue) (j : Nat) (hwf : q.well_formed)
    (hterm : (q.poll j).1.isTerminal = true) : (q.poll j).2.consumed j := by
  unfold JobQueue.poll at hterm ⊢
  cases hfind : q.jobs.find? (fun job => job.id == j) with
  | none => simp [hfind, PollResult.isTerminal] at hterm
  | some job =>
    have hmem := List.mem_of_find?_eq_some hfind
    have hid : job.id = j := by
      have := List.find?_some hfind
      simpa using this
    have hlt : j < q.next_id := hid ▸ hwf.1 job hmem
    simp only [hfind] at hterm ⊢
    cases hstate : job.state with
    | pending => simp [hstate, PollResult.isTerminal] at hterm
    | running => simp [hstate, PollResult.isTerminal] at hterm
    | completed envelope => exact ⟨hlt, eraseP_id_gone j q.jobs hwf.2⟩
    | failed envelope => exact ⟨hlt, eraseP_id_gone j q.jobs hwf.2⟩

theorem polls_of_consumed (j : Nat) (ops : List QueueOp) (q : JobQueue) (h : q.consumed j) :
    (polls_of j q ops).all (fun a => a == PollResult.not_found) = true := by
  induction ops generalizing q with
  | nil => rfl
  | cons op rest ih =>
    cases op with
    | enqueue method wallet params =>
      simp only [polls_of]
      exact ih _ (apply_consumed q _ j h)
    | worker_start =>
      simp only [polls_of]
      exact ih _ (apply_consumed q _ j h)
    | worker_finish id outcome =>
      simp only [polls_of]
      exact ih _ (apply_consumed q _ j h)
    | poll id =>
      simp only [polls_of]
      by_cases hid : id = j
      · subst hid
        simp only [if_true, List.all_cons, poll_of_consumed q id h, beq_self_eq_true,
          Bool.true_and]
        exact ih _ (apply_consumed q _ id h)
      · simp only [hid, if_false]
        exact ih _ (apply_consumed q _ j h)

theorem polls_of_well_formed (j : Nat) (ops : List QueueOp) (q : JobQueue)
    (h : q.well_formed) : delivered_at_most_once (polls_of j q ops) = true := by
  induction ops generalizing q with
  | nil => rfl
  | cons op rest ih =>
    cases op with
    | enqueue method wallet params =>
      simp only [polls_of]
      exact ih _ (apply_well_formed q _ h)
    | worker_start =>
      simp only [polls_of]
      exact ih _ (apply_well_formed q _ h)
    | worker_finish id outcome =>
      simp only [polls_of]
      exact ih _ (apply_well_formed q _ h)
    | poll id =>
      simp only [polls_of]
      by_cases hid : id = j
      · subst hid
        simp only [if_true, delivered_at_most_once]
        by_cases hterm : (q.poll id).1.isTerminal = true
        · simp only [hterm, if_true]
          exact polls_of_consumed id rest _ (consumed_of_terminal q id h hterm)
        · simp only [hterm, Bool.false_eq_true, if_false]
          exact ih _ (apply_well_formed q _ h)
      · simp only [hid, if_false]
        exact ih _ (apply_well_formed q _ h)

theorem empty_well_formed : JobQueue.empty.well_formed := by
  constructor
  · intro job hjob
    cases hjob
  · exact List.nodup_nil

theorem foldl_apply_well_formed (ops : List QueueOp) (q : JobQueue) (h : q.well_formed) :
    (ops.foldl JobQueue.apply q).well_formed := by
  induction ops generalizing q with
  | nil => exact h
  | cons op rest ih => exact ih _ (apply_well_formed q op h)

theorem terminal_count_le_one (answers : List PollResult)
    (h : delivered_at_most_once answers = true) :
    (answers.filter PollResult.isTerminal).length ≤ 1 := by
  induction answers with
  | nil => simp
  | cons a rest ih =>
    simp only [delivered_at_most_once] at h
    by_cases ht : a.isTerminal = true
    · simp only [ht, if_true] at h
      have hnone : rest.filter PollResult.isTerminal = [] := by
        rw [List.filter_eq_nil_iff]
        intro x hx
        have := List.all_eq_true.mp h x hx
        simp only [beq_iff_eq] at this
        subst this
        simp [PollResult.isTerminal]
      simp [List.filter_cons, ht, hnone]
    · simp only [ht, Bool.false_eq_true, if_false] at h
      simp only [List.filter_cons, ht, Bool.false_eq_true, if_false]
      exact ih h

/-! ## Properties of the job queue -/

/-- C14. At-most-once delivery, on the job queue as the spec describes it (the
engine's `try_pull_result` is not under src/): from process start, over any
sequence of queue operations (enqueue, worker steps, polls of any job) and for
every job id `j`, at most one poll of `j` answers a terminal
(`Completed`/`Failed`) result, and once a poll of `j` has answered a terminal
result every later poll of `j` answers `NotFound`. `pw_try_pull_result` is
such a poll: it hands the engine's answer to `dup_str` and leaves the queue
as `poll` leaves it. -/
theorem result_is_delivered_at_most_once (j : Nat) (ops : List QueueOp) :
    delivered_at_most_once (polls_of j JobQueue.empty ops) = true ∧
    ((polls_of j JobQueue.empty ops).filter PollResult.isTerminal).length ≤ 1 ∧
    (∀ later : List QueueOp,
      ((ops.foldl JobQueue.apply JobQueue.empty).poll j).1.isTerminal = true →
      (polls_of j ((ops.foldl JobQueue.apply JobQueue.empty).poll j).2 later).all
        (fun a => a == PollResult.not_found) = true) ∧
    (∀ (word_job_id : Nat → StdString) (word_poll : PollResult → StdString) (A : Allocator)
        (job_id : Nat) (w : World JobQueue),
      pw_try_pull_result (queue_engine word_job_id word_poll) A job_id w
        = (dup_str A (word_poll (w.engine.poll job_id).1),
            { engine := (w.engine.poll job_id).2,
              trace := w.trace
                ++ [Event.lock, Event.engine_enter, Event.engine_exit, Event.unlock] })) ∧
    polls_of 1 JobQueue.empty
        [QueueOp.enqueue (lit "invoke") 7 (lit "\x7b\x7d"), QueueOp.poll 1,
          QueueOp.worker_start, QueueOp.poll 1,
          QueueOp.worker_finish 1 (Envelope.success (lit "done")), QueueOp.poll 1,
          QueueOp.poll 1, QueueOp.enqueue (lit "open") 0 [], QueueOp.poll 1]
      = [PollResult.pending, PollResult.running,
          PollResult.completed (Envelope.success (lit "done")),
          PollResult.not_found, PollResult.not_found] := by
  have h1 := polls_of_well_formed j ops JobQueue.empty empty_well_formed
  refine ⟨h1, terminal_count_le_one _ h1, ?_, ?_, by decide⟩
  · intro later hterm
    exact polls_of_consumed j later _
      (consumed_of_terminal _ j (foldl_apply_well_formed ops _ empty_well_formed) hterm)
  · intro word_job_id word_poll A job_id w
    simp [pw_try_pull_result, lock_guard, engine_call, queue_engine]

/-- C15. On the job queue as the spec describes it (the engine's `async_call`
is not under src/): for every method name outside the allow-list `open`,
`close`, `restore`, `invoke`, `get_wallet_status`, every wallet id and every
params string, `enqueue` fails with `UnsupportedMethod` and leaves the queue
as it was, so that no job id is issued; `pw_async_call` hands the error
envelope `{"error": "UnsupportedMethod"}` to `dup_str`, which returns it when
`malloc` supplies the buffer. -/
theorem unsupported_method_is_refused (word_job_id : Nat → StdString)
    (word_poll : PollResult → StdString) (A : Allocator) (method_name : CPtr) (wallet_id : Int)
    (params : CPtr) (w : World JobQueue) (hout : safe_str method_name ∉ async_methods) :
    w.engine.enqueue (safe_str method_name) wallet_id (safe_str params)
      = (EnqueueResult.unsupported_method, w.engine) ∧
    (pw_async_call (queue_engine word_job_id word_poll) A method_name wallet_id params w).1
      = dup_str A (lit "\x7b\"error\": \"UnsupportedMethod\"\x7d") ∧
    ((A.malloc ((lit "\x7b\"error\": \"UnsupportedMethod\"\x7d").length + 1)).isSome →
      (pw_async_call (queue_engine word_job_id word_poll) A method_name wallet_id params w).1
        = CStrResult.buffer (c_str (lit "\x7b\"error\": \"UnsupportedMethod\"\x7d"))) ∧
    (pw_async_call (queue_engine word_job_id word_poll) A method_name wallet_id params w).2.engine
      = w.engine := by
  have henq : w.engine.enqueue (safe_str method_name) wallet_id (safe_str params)
      = (EnqueueResult.unsupported_method, w.engine) := by
    unfold JobQueue.enqueue
    rw [if_neg hout]
  have hres : (pw_async_call (queue_engine word_job_id word_poll) A method_name wallet_id
      params w).1 = dup_str A (lit "\x7b\"error\": \"UnsupportedMethod\"\x7d") := by
    simp only [pw_async_call, lock_guard, engine_call, queue_engine, henq]
    rfl
  refine ⟨henq, hres, ?_, ?_⟩
  · intro hm
    rw [hres, dup_str_of_malloc A _ hm]
  · simp only [pw_async_call, lock_guard, engine_call, queue_engine, henq]

/-- C15, at an instance: `pw_async_call("get_wallet_info", 1, "{}")` on the
empty queue is refused and issues no job id, whereas
`pw_async_call("invoke", 1, "{}")` issues job 1. -/
theorem unsupported_method_is_refused_witness :
    safe_str (some (c_str (lit "get_wallet_info"))) ∉ async_methods ∧
    (pw_async_call (queue_engine (fun n => lit (Nat.repr n)) (fun _ => [])) Allocator.ample
        (some (c_str (lit "get_wallet_info"))) 1 (some (c_str (lit "\x7b\x7d")))
        { engine := JobQueue.empty, trace := [] }).1
      = CStrResult.buffer (c_str (lit "\x7b\"error\": \"UnsupportedMethod\"\x7d")) ∧
    (pw_async_call (queue_engine (fun n => lit (Nat.repr n)) (fun _ => [])) Allocator.ample
        (some (c_str (lit "get_wallet_info"))) 1 (some (c_str (lit "\x7b\x7d")))
        { engine := JobQueue.empty, trace := [] }).2.engine = JobQueue.empty ∧
    (pw_async_call (queue_engine (fun n => lit (Nat.repr n)) (fun _ => [])) Allocator.ample
        (some (c_str (lit "invoke"))) 1 (some (c_str (lit "\x7b\x7d")))
        { engine := JobQueue.empty, trace := [] }).1
      = CStrResult.buffer (c_str (lit "1")) :=
  ⟨by decide,
    (unsupported_method_is_refused (fun n => lit (Nat.repr n)) (fun _ => []) Allocator.ample
      (some (c_str (lit "get_wallet_info"))) 1 (some (c_str (lit "\x7b\x7d")))
      { engine := JobQueue.empty, trace := [] } (by decide)).2.2.1 rfl,
    (unsupported_method_is_refused (fun n => lit (Nat.repr n)) (fun _ => []) Allocator.ample
      (some (c_str (lit "get_wallet_info"))) 1 (some (c_str (lit "\x7b\x7d")))
      { engine := JobQueue.empty, trace := [] } (by decide)).2.2.2,
    by decide⟩

/-! ## Properties of the error message of the host-bridged transport -/

theorem encodeWithin_length_le (str : JSString) (room : Nat) :
    (encodeWithin str room).length ≤ room := by
  induction str generalizing room with
  | nil => simp [encodeWithin]
  | cons c cs ih =>
    unfold encodeWithin
    split
    · rename_i hfit
      have := ih (room - c.utf8Size)
      simp only [List.length_append, String.length_utf8EncodeChar]
      omega
    · simp

theorem cstr_read_length_le (a rest : List UInt8) :
    (cstr_read (a ++ 0 :: rest)).length ≤ a.length := by
  induction a with
  | nil => simp [cstr_read]
  | cons x xs ih =>
    simp only [cstr_read] at ih
    simp only [cstr_read, List.cons_append, List.takeWhile_cons]
    split
    · simp only [List.length_cons]
      omega
    · simp

/-- The C string that `malloc_and_store` leaves for `len = lengthBytesUTF8(msg) + 1`
has at most `lengthBytesUTF8(msg)` bytes, whatever string it was asked to store. -/
theorem malloc_and_store_length (H : Host) (str msg : JSString) (buf : CBuf)
    (h : malloc_and_store H str (lengthBytesUTF8 msg + 1) = some buf) :
    (cstr_read buf).length ≤ lengthBytesUTF8 msg := by
  unfold malloc_and_store at h
  cases hm : H.heap.malloc (lengthBytesUTF8 msg + 1) with
  | none => simp [hm] at h
  | some block =>
    simp only [hm, stringToUTF8, Nat.add_one_ne_zero, if_false, Nat.add_sub_cancel, memcpy,
      List.take_length, Option.some.injEq] at h
    subst h
    rw [List.append_assoc]
    exact Nat.le_trans (cstr_read_length_le _ _) (encodeWithin_length_le _ _)

/-- C16 (the code departs from it). The buffer is sized for `errorMsg` alone
and then filled with `ERROR:` followed by `errorMsg`, so the last bytes of the
message do not fit. For a 404 answer `Not Found` with body `nope` the buffer
reads `ERROR:HTTP 404: Not Foun` and `get_last_error()` is
`HTTP 404: Not Foun`, not `HTTP 404: Not Found`, line feed, `nope`; for a
rejected fetch `Failed to fetch` it is `Fetch failed: Failed to`. In general
the C string stored for `ERROR:` followed by `errorMsg` has at most as many
bytes as `errorMsg` alone, six fewer than it needs. -/
theorem error_message_loses_its_last_bytes :
    _fetch_http
        (Host.answering
          (FetchOutcome.resolved
            { ok := false, status := 404, statusText := "Not Found".data,
              text := Except.ok "nope".data })
          Allocator.ample)
        (c_str (lit "http://127.0.0.1:11211/json_rpc")) (c_str (lit "\x7b\x7d"))
        (c_str (lit "application/json"))
      = some (c_str (lit "ERROR:HTTP 404: Not Foun")) ∧
    get_last_error (rpc_json
        (Host.answering
          (FetchOutcome.resolved
            { ok := false, status := 404, statusText := "Not Found".data,
              text := Except.ok "nope".data })
          Allocator.ample)
        (lit "http://127.0.0.1:11211/json_rpc") (lit "\x7b\x7d") TransportState.start).2
      = lit "HTTP 404: Not Foun" ∧
    lit "HTTP 404: Not Foun" ≠ lit "HTTP 404: Not Found\nnope" ∧
    get_last_error (rpc_json
        (Host.answering
          (FetchOutcome.rejected { message := some "Failed to fetch".data, toStr := [] })
          Allocator.ample)
        (lit "http://127.0.0.1:11211/json_rpc") (lit "\x7b\x7d") TransportState.start).2
      = lit "Fetch failed: Failed to" ∧
    (∀ (H : Host) (errorMsg : JSString) (buf : CBuf),
      malloc_and_store H ("ERROR:".data ++ errorMsg) (lengthBytesUTF8 errorMsg + 1) = some buf →
      (cstr_read buf).length ≤ lengthBytesUTF8 errorMsg ∧
        lengthBytesUTF8 ("ERROR:".data ++ errorMsg) = lengthBytesUTF8 errorMsg + 6) := by
  refine ⟨by decide, by decide, by decide, by decide, ?_⟩
  intro H errorMsg buf h
  refine ⟨malloc_and_store_length H _ errorMsg buf h, ?_⟩
  rw [lengthBytesUTF8_append]
  have : lengthBytesUTF8 "ERROR:".data = 6 := by decide
  omega

/-! ## Lemmas on the last error -/

theorem rpc_json_outcome (H : Host) (url body : StdString) (st : TransportState) :
    (url = [] ∧
      ((rpc_json H url body st).1 = Except.error (CppException.runtime_error
          (lit "Transport error: " ++ get_last_error (rpc_json H url body st).2)) ∧
        get_last_error (rpc_json H url body st).2 = lit "URL cannot be empty")) ∨
    (url ≠ [] ∧ _fetch_http H (c_str url) (c_str body) (c_str (lit "application/json")) = none ∧
      ((rpc_json H url body st).1 = Except.error (CppException.runtime_error
          (lit "Transport error: " ++ get_last_error (rpc_json H url body st).2)) ∧
        get_last_error (rpc_json H url body st).2 = lit "Fetch returned null pointer")) ∨
    (url ≠ [] ∧ ∃ tail rest, _fetch_http H (c_str url) (c_str body) (c_str (lit "application/json"))
        = some rest ∧ cstr_read rest = lit "ERROR:" ++ tail ∧
      ((rpc_json H url body st).1 = Except.error (CppException.runtime_error
          (lit "Transport error: " ++ get_last_error (rpc_json H url body st).2)) ∧
        get_last_error (rpc_json H url body st).2 = tail)) ∨
    (url ≠ [] ∧ ∃ rest, _fetch_http H (c_str url) (c_str body) (c_str (lit "application/json"))
        = some rest ∧ ¬ lit "ERROR:" <+: cstr_read rest ∧
      ((rpc_json H url body st).1 = Except.ok (cstr_read rest) ∧
        get_last_error (rpc_json H url body st).2 = [])) := by
  by_cases hurl : url = []
  · subst hurl
    exact Or.inl ⟨rfl, rfl, rfl⟩
  have hempty := isEmpty_eq_false_of_ne_nil url hurl
  cases hb : _fetch_http H (c_str url) (c_str body) (c_str (lit "application/json")) with
  | none =>
    refine Or.inr (Or.inl ⟨hurl, rfl, ?_⟩)
    simp only [rpc_json, hempty, Bool.false_eq_true, if_false, hb, get_last_error, and_self]
  | some rest =>
    by_cases hp : lit "ERROR:" <+: cstr_read rest
    · have hfind := (find_eq_zero_iff (cstr_read rest) (lit "ERROR:")).mpr hp
      obtain ⟨tail, htail⟩ := hp
      have hdrop : (cstr_read rest).drop 6 = tail := by
        rw [← htail]
        exact List.drop_left' (by decide)
      refine Or.inr (Or.inr (Or.inl ⟨hurl, tail, rest, rfl, htail.symm, ?_⟩))
      simp only [rpc_json, hempty, Bool.false_eq_true, if_false, hb, hfind, if_true,
        substr_of_sentinel _ ⟨tail, htail⟩, get_last_error, hdrop, and_self]
    · have hfind : ¬ find (cstr_read rest) (lit "ERROR:") = some 0 :=
        fun h => hp ((find_eq_zero_iff _ _).mp h)
      refine Or.inr (Or.inr (Or.inr ⟨hurl, rest, rfl, hp, ?_⟩))
      simp only [rpc_json, hempty, Bool.false_eq_true, if_false, hb, hfind, get_last_error,
        and_self]

theorem rpc_binary_outcome (H : Host) (url body : StdString) (st : TransportState) :
    (url = [] ∧
      ((rpc_binary H url body st).1 = Except.error (CppException.runtime_error
          (lit "Transport error: " ++ get_last_error (rpc_binary H url body st).2)) ∧
        get_last_error (rpc_binary H url body st).2 = lit "URL cannot be empty")) ∨
    (url ≠ [] ∧ _fetch_http H (c_str url) (c_str body) (c_str (lit "application/octet-stream")) = none ∧
      ((rpc_binary H url body st).1 = Except.error (CppException.runtime_error
          (lit "Transport error: " ++ get_last_error (rpc_binary H url body st).2)) ∧
        get_last_error (rpc_binary H url body st).2 = lit "Fetch returned null pointer")) ∨
    (url ≠ [] ∧ ∃ tail rest, _fetch_http H (c_str url) (c_str body) (c_str (lit "application/octet-stream"))
        = some rest ∧ cstr_read rest = lit "ERROR:" ++ tail ∧
      ((rpc_binary H url body st).1 = Except.error (CppException.runtime_error
          (lit "Transport error: " ++ get_last_error (rpc_binary H url body st).2)) ∧
        get_last_error (rpc_binary H url body st).2 = tail)) ∨
    (url ≠ [] ∧ ∃ rest, _fetch_http H (c_str url) (c_str body) (c_str (lit "application/octet-stream"))
        = some rest ∧ ¬ lit "ERROR:" <+: cstr_read rest ∧
      ((rpc_binary H url body st).1 = Except.ok (cstr_read rest) ∧
        get_last_error (rpc_binary H url body st).2 = [])) := by
  by_cases hurl : url = []
  · subst hurl
    exact Or.inl ⟨rfl, rfl, rfl⟩
  have hempty := isEmpty_eq_false_of_ne_nil url hurl
  cases hb : _fetch_http H (c_str url) (c_str body) (c_str (lit "application/octet-stream")) with
  | none =>
    refine Or.inr (Or.inl ⟨hurl, rfl, ?_⟩)
    simp only [rpc_binary, hempty, Bool.false_eq_true, if_false, hb, get_last_error, and_self]
  | some rest =>
    by_cases hp : lit "ERROR:" <+: cstr_read rest
    · have hfind := (find_eq_zero_iff (cstr_read rest) (lit "ERROR:")).mpr hp
      obtain ⟨tail, htail⟩ := hp
      have hdrop : (cstr_read rest).drop 6 = tail := by
        rw [← htail]
        exact List.drop_left' (by decide)
      refine Or.inr (Or.inr (Or.inl ⟨hurl, tail, rest, rfl, htail.symm, ?_⟩))
      simp only [rpc_binary, hempty, Bool.false_eq_true, if_false, hb, hfind, if_true,
        substr_of_sentinel _ ⟨tail, htail⟩, get_last_error, hdrop, and_self]
    · have hfind : ¬ find (cstr_read rest) (lit "ERROR:") = some 0 :=
        fun h => hp ((find_eq_zero_iff _ _).mp h)
      refine Or.inr (Or.inr (Or.inr ⟨hurl, rest, rfl, hp, ?_⟩))
      simp only [rpc_binary, hempty, Bool.false_eq_true, if_false, hb, hfind, get_last_error,
        and_self]

/-- C17 (amended). In the host-bridged transport, after every call of
`rpc_json` or `rpc_binary`: if the call succeeded, `get_last_error()` returns
the empty string; if the call failed, the raised error is the runtime error
`Transport error: ` followed by `get_last_error()`, and `get_last_error()` is
empty exactly when the URL was not empty and the buffer returned by the bridge
reads `ERROR:` with nothing behind it. -/
theorem last_error_after_a_call (H : Host) (url body : StdString) (st : TransportState) :
    ((∀ r, (rpc_json H url body st).1 = Except.ok r →
        get_last_error (rpc_json H url body st).2 = []) ∧
      (∀ e, (rpc_json H url body st).1 = Except.error e →
        e = CppException.runtime_error
            (lit "Transport error: " ++ get_last_error (rpc_json H url body st).2) ∧
          (get_last_error (rpc_json H url body st).2 = [] ↔
            url ≠ [] ∧ ∃ buf, _fetch_http H (c_str url) (c_str body) (c_str (lit "application/json"))
              = some buf ∧ cstr_read buf = lit "ERROR:"))) ∧
    ((∀ r, (rpc_binary H url body st).1 = Except.ok r →
        get_last_error (rpc_binary H url body st).2 = []) ∧
      (∀ e, (rpc_binary H url body st).1 = Except.error e →
        e = CppException.runtime_error
            (lit "Transport error: " ++ get_last_error (rpc_binary H url body st).2) ∧
          (get_last_error (rpc_binary H url body st).2 = [] ↔
            url ≠ [] ∧ ∃ buf, _fetch_http H (c_str url) (c_str body) (c_str (lit "application/octet-stream"))
              = some buf ∧ cstr_read buf = lit "ERROR:"))) := by
  constructor
  · have hne1 : lit "URL cannot be empty" ≠ [] := by decide
    have hne2 : lit "Fetch returned null pointer" ≠ [] := by decide
    rcases rpc_json_outcome H url body st with ⟨hurl, h1, h2⟩ | ⟨hurl, hb, h1, h2⟩ |
      ⟨hurl, tail, rest, hb, hread, h1, h2⟩ | ⟨hurl, rest, hb, hp, h1, h2⟩
    · refine ⟨fun r hr => ?_, fun e he => ⟨?_, ?_⟩⟩
      · rw [h1] at hr
        cases hr
      · rw [h1] at he
        cases he
        rfl
      · rw [h2]
        exact ⟨fun h => absurd h hne1, fun h => absurd hurl h.1⟩
    · refine ⟨fun r hr => ?_, fun e he => ⟨?_, ?_⟩⟩
      · rw [h1] at hr
        cases hr
      · rw [h1] at he
        cases he
        rfl
      · rw [h2]
        refine ⟨fun h => absurd h hne2, fun h => ?_⟩
        obtain ⟨_, buf, hbuf, _⟩ := h
        rw [hb] at hbuf
        cases hbuf
    · refine ⟨fun r hr => ?_, fun e he => ⟨?_, ?_⟩⟩
      · rw [h1] at hr
        cases hr
      · rw [h1] at he
        cases he
        rfl
      · rw [h2]
        constructor
        · intro ht
          subst ht
          exact ⟨hurl, rest, hb, by simpa using hread⟩
        · intro h
          obtain ⟨_, buf, hbuf, hbare⟩ := h
          rw [hb] at hbuf
          cases hbuf
          rw [hbare] at hread
          have := congrArg List.length hread
          simp only [List.length_append] at this
          exact List.length_eq_zero.mp (by omega)
    · refine ⟨fun r hr => h2, fun e he => ?_⟩
      rw [h1] at he
      cases he
  · have hne1 : lit "URL cannot be empty" ≠ [] := by decide
    have hne2 : lit "Fetch returned null pointer" ≠ [] := by decide
    rcases rpc_binary_outcome H url body st with ⟨hurl, h1, h2⟩ | ⟨hurl, hb, h1, h2⟩ |
      ⟨hurl, tail, rest, hb, hread, h1, h2⟩ | ⟨hurl, rest, hb, hp, h1, h2⟩
    · refine ⟨fun r hr => ?_, fun e he => ⟨?_, ?_⟩⟩
      · rw [h1] at hr
        cases hr
      · rw [h1] at he
        cases he
        rfl
      · rw [h2]
        exact ⟨fun h => absurd h hne1, fun h => absurd hurl h.1⟩
    · refine ⟨fun r hr => ?_, fun e he => ⟨?_, ?_⟩⟩
      · rw [h1] at hr
        cases hr
      · rw [h1] at he
        cases he
        rfl
      · rw [h2]
        refine ⟨fun h => absurd h hne2, fun h => ?_⟩
        obtain ⟨_, buf, hbuf, _⟩ := h
        rw [hb] at hbuf
        cases hbuf
    · refine ⟨fun r hr => ?_, fun e he => ⟨?_, ?_⟩⟩
      · rw [h1] at hr
        cases hr
      · rw [h1] at he
        cases he
        rfl
      · rw [h2]
        constructor
        · intro ht
          subst ht
          exact ⟨hurl, rest, hb, by simpa using hread⟩
        · intro h
          obtain ⟨_, buf, hbuf, hbare⟩ := h
          rw [hb] at hbuf
          cases hbuf
          rw [hbare] at hread
          have := congrArg List.length hread
          simp only [List.length_append] at this
          exact List.length_eq_zero.mp (by omega)
    · refine ⟨fun r hr => h2, fun e he => ?_⟩
      rw [h1] at he
      cases he

/-- C17, at an instance: a call that succeeds, a call that fails with a
message, and a call that fails on the bare sentinel. -/
theorem last_error_after_a_call_witness :
    (rpc_json
        (Host.answering
          (FetchOutcome.resolved
            { ok := true, status := 200, statusText := "OK".data,
              text := Except.ok "\x7b\"result\":1\x7d".data })
          Allocator.ample)
        (lit "http://127.0.0.1:11211/json_rpc") (lit "\x7b\x7d")
        { g_last_error := lit "stale", bridge_calls := [] }).1
      = Except.ok (lit "\x7b\"result\":1\x7d") ∧
    get_last_error (rpc_json
        (Host.answering
          (FetchOutcome.resolved
            { ok := true, status := 200, statusText := "OK".data,
              text := Except.ok "\x7b\"result\":1\x7d".data })
          Allocator.ample)
        (lit "http://127.0.0.1:11211/json_rpc") (lit "\x7b\x7d")
        { g_last_error := lit "stale", bridge_calls := [] }).2 = [] ∧
    (rpc_binary (Host.answering (FetchOutcome.rejected { message := none, toStr := [] })
        Allocator.exhausted) (lit "http://127.0.0.1:11211/json_rpc") [] TransportState.start).1
      = Except.error (CppException.runtime_error
          (lit "Transport error: " ++ get_last_error
            (rpc_binary (Host.answering (FetchOutcome.rejected { message := none, toStr := [] })
              Allocator.exhausted) (lit "http://127.0.0.1:11211/json_rpc") []
              TransportState.start).2)) :=
  ⟨rfl,
    (last_error_after_a_call
      (Host.answering
        (FetchOutcome.resolved
          { ok := true, status := 200, statusText := "OK".data,
            text := Except.ok "\x7b\"result\":1\x7d".data })
        Allocator.ample)
      (lit "http://127.0.0.1:11211/json_rpc") (lit "\x7b\x7d")
      { g_last_error := lit "stale", bridge_calls := [] }).1.1 _ rfl,
    ((last_error_after_a_call
      (Host.answering (FetchOutcome.rejected { message := none, toStr := [] })
        Allocator.exhausted)
      (lit "http://127.0.0.1:11211/json_rpc") [] TransportState.start).2.2 _ rfl).1 ▸ rfl⟩

/-- C17 as stated fails: a 200 answer whose body is `ERROR:` makes `rpc_json`
fail with the runtime error `Transport error: ` while `get_last_error()`
returns the empty string. -/
theorem failed_call_with_empty_last_error :
    (rpc_json
        (Host.answering
          (FetchOutcome.resolved
            { ok := true, status := 200, statusText := "OK".data,
              text := Except.ok "ERROR:".data })
          Allocator.ample)
        (lit "http://127.0.0.1:11211/json_rpc") (lit "\x7b\x7d") TransportState.start).1
      = Except.error (CppException.runtime_error (lit "Transport error: ")) ∧
    get_last_error (rpc_json
        (Host.answering
          (FetchOutcome.resolved
            { ok := true, status := 200, statusText := "OK".data,
              text := Except.ok "ERROR:".data })
          Allocator.ample)
        (lit "http://127.0.0.1:11211/json_rpc") (lit "\x7b\x7d") TransportState.start).2
      = [] := by
  refine ⟨rfl, rfl⟩

end ZanoNative
